import Mathlib

/-!
Verification development for the HouseEvaluator valuation engine.

Shallow embedding of the core modules:
  * backend/src/rules/jsonlogic.py   (restricted JSONLogic evaluator)
  * backend/src/scoring.py           (feature/component scoring, grading, rule selection)
  * backend/src/benchmark_matcher.py (tiered benchmark matching + hedonic adjustment)
  * backend/src/evaluate.py          (derived metrics, validation, what-if slices)

Modeling conventions:
  * Python floats are modeled as exact rationals; the transcendental
    shrink step exp(log f * strength) is abstracted as an explicit function
    parameter, so theorems quantify over every possible shrink model.
  * Python exceptions are modeled with Except String; JSON data with an
    inductive J; dicts with association lists in insertion order.
  * Python int/bool unification (bool is a subclass of int) is reflected in
    the numeric coercion helpers.
-/

set_option maxHeartbeats 1000000

/-- Round to nearest integer, ties to even: the rounding used by the Python
built-in round on the values that occur here. -/
def roundHalfEven (q : ℚ) : Int :=
  let n := ⌊q⌋
  let frac := q - (n : ℚ)
  if frac < 1/2 then n
  else if 1/2 < frac then n + 1
  else if n % 2 = 0 then n else n + 1

/-- scoring._round / evaluate._round: round a float to ndigits decimal digits. -/
def pyRound6 (x : ℚ) (ndigits : Nat := 6) : ℚ :=
  (roundHalfEven (x * ((10 : ℚ) ^ ndigits))) / ((10 : ℚ) ^ ndigits)

/-- JSON-like runtime values of the Python engine (payloads, contexts, rule
expressions, spec fragments).  Numbers keep Python int vs float apart. -/
inductive J where
  | null : J
  | bool (b : Bool) : J
  | int (n : Int) : J
  | num (q : ℚ) : J
  | str (s : String) : J
  | list (xs : List J) : J
  | obj (kvs : List (String × J)) : J
deriving Repr

/-- Python truthiness bool(x). -/
def truthy : J → Bool
  | .null => false
  | .bool b => b
  | .int n => n != 0
  | .num q => q != 0
  | .str s => s != ""
  | .list xs => !xs.isEmpty
  | .obj kvs => !kvs.isEmpty

/-- Numeric view used wherever the source checks isinstance(x, (int, float)):
Python bool is a subclass of int, so booleans count as numbers. -/
def asNumQ : J → Option ℚ
  | .int n => some (n : ℚ)
  | .num q => some q
  | .bool b => some (if b then 1 else 0)
  | _ => none

/-- First-match association-list lookup (Python dict keys are unique). -/
def objGet (kvs : List (String × J)) (k : String) : Option J :=
  match kvs with
  | [] => none
  | (k', v) :: rest => if k' = k then some v else objGet rest k

/-- Python dict assignment d[k] = v: replace in place, else append. -/
def setKey (l : List (String × J)) (k : String) (v : J) : List (String × J) :=
  match l with
  | [] => [(k, v)]
  | (k', v') :: rest => if k' = k then (k, v) :: rest else (k', v') :: setKey rest k v

/-- Python x.strip(): drop leading and trailing whitespace. -/
def pyStrip (s : String) : String :=
  ⟨((s.data.dropWhile Char.isWhitespace).reverse.dropWhile Char.isWhitespace).reverse⟩

/-- Python x.lower(). -/
def pyLower (s : String) : String := ⟨s.data.map Char.toLower⟩

/-- Python x.upper(). -/
def pyUpper (s : String) : String := ⟨s.data.map Char.toUpper⟩

/-- Python x.endswith(suffix). -/
def strEndsWith (s suffix : String) : Bool :=
  s.data.reverse.take suffix.data.length == suffix.data.reverse

/-- Python int(float): truncation toward zero on rationals. -/
def ratTrunc (q : ℚ) : Int := q.num / q.den

/-- Python str(x) for the scalar shapes that can reach a str() call here.
The float/list/obj renderings are abstractions of the Python repr; no rule in
this repo applies str() to them. -/
def pyStr : J → String
  | .null => "None"
  | .bool b => if b then "True" else "False"
  | .int n => toString n
  | .num q => toString q
  | .str s => s
  | .list _ => "[...]"
  | .obj _ => "[...]"

/-- Substring test (Python needle in haystack for strings). -/
def strContains (hay sub : String) : Bool :=
  if sub = "" then true else (hay.splitOn sub).length != 1

mutual
/-- Python == on JSON values: cross-type numeric equality (1 == 1.0 == True),
element-wise on lists, mixed scalar types unequal. -/
def pyEqB : J → J → Bool
  | .null, .null => true
  | .str a, .str b => a == b
  | .list xs, .list ys => pyEqList xs ys
  | .obj xs, .obj ys => pyEqObj xs ys
  | a, b =>
    match asNumQ a, asNumQ b with
    | some x, some y => x == y
    | _, _ => false

def pyEqList : List J → List J → Bool
  | [], [] => true
  | x :: xs, y :: ys => pyEqB x y && pyEqList xs ys
  | _, _ => false

/-- Python dict equality is key-set based; configuration rules never compare
objects, so pairwise comparison in insertion order is an adequate model. -/
def pyEqObj : List (String × J) → List (String × J) → Bool
  | [], [] => true
  | (k, v) :: xs, (k', v') :: ys => k == k' && pyEqB v v' && pyEqObj xs ys
  | _, _ => false
end

mutual
/-- Python ordering comparison: numbers (incl. bool) compare numerically,
strings lexicographically, lists lexicographically; other mixes raise
TypeError. -/
def pyCmpE : J → J → Except String Ordering
  | .str a, .str b =>
    .ok (if a < b then .lt else if a = b then .eq else .gt)
  | .list xs, .list ys => pyCmpListE xs ys
  | a, b =>
    match asNumQ a, asNumQ b with
    | some x, some y => .ok (if x < y then .lt else if x = y then .eq else .gt)
    | _, _ => .error "TypeError: unorderable types"

def pyCmpListE : List J → List J → Except String Ordering
  | [], [] => .ok .eq
  | [], _ :: _ => .ok .lt
  | _ :: _, [] => .ok .gt
  | x :: xs, y :: ys =>
    if pyEqB x y then pyCmpListE xs ys
    else pyCmpE x y
end

/-- jsonlogic._get_var: a key string or a [key, default] list. -/
def getVar (data : List (String × J)) : J → Except String J
  | .str k => .ok ((objGet data k).getD .null)
  | .list (k₀ :: rest) =>
    match k₀ with
    | .str k =>
      match objGet data k with
      | some v => .ok v
      | none => .ok (rest.headD .null)
    | _ => .error "Unsupported var expression"
  | _ => .error "Unsupported var expression"

mutual
/-- jsonlogic.apply: the restricted JSONLogic evaluator. -/
def applyJL (data : List (String × J)) : J → Except String J
  | .null => .ok .null
  | .bool b => .ok (.bool b)
  | .int n => .ok (.int n)
  | .num q => .ok (.num q)
  | .str s => .ok (.str s)
  | .list xs => do
    let vs ← applyJLList data xs
    .ok (.list vs)
  | .obj kvs =>
    match kvs with
    | [(op, rawArgs)] =>
      if op = "var" then getVar data rawArgs
      else
        match rawArgs with
        | .list args => applyJLOp data op args
        | other => applyJLOp data op [other]
    | _ => .error "JSONLogic object must have exactly 1 key"

def applyJLList (data : List (String × J)) : List J → Except String (List J)
  | [] => .ok []
  | x :: xs => do
    let v ← applyJL data x
    let vs ← applyJLList data xs
    .ok (v :: vs)

def applyJLOp (data : List (String × J)) (op : String) (args : List J) : Except String J :=
  if op = "and" then applyJLAnd data args (.bool true)
  else if op = "in" then
    match args with
    | [a, b] => do
      let needle ← applyJL data a
      let haystack ← applyJL data b
      match haystack with
      | .null => .ok (.bool false)
      | .list xs => .ok (.bool (xs.any (pyEqB needle)))
      | .str s => .ok (.bool (strContains s (pyStr needle)))
      | _ => .ok (.bool false)
    | _ => .error "in expects 2 args"
  else if op = "==" ∨ op = "!=" ∨ op = ">" ∨ op = ">=" ∨ op = "<" ∨ op = "<=" then
    match args with
    | [a, b] => do
      let left ← applyJL data a
      let right ← applyJL data b
      if op = "==" then .ok (.bool (pyEqB left right))
      else if op = "!=" then .ok (.bool (!pyEqB left right))
      else
        match left, right with
        | .null, _ => .ok (.bool false)
        | _, .null => .ok (.bool false)
        | l, r => do
          let o ← pyCmpE l r
          if op = ">" then .ok (.bool (o = .gt))
          else if op = ">=" then .ok (.bool (o = .gt ∨ o = .eq))
          else if op = "<" then .ok (.bool (o = .lt))
          else .ok (.bool (o = .lt ∨ o = .eq))
    | _ => .error ("op expects 2 args: " ++ op)
  else .error ("Unsupported op: " ++ op)

/-- JSONLogic and: return the first falsy operand value, else the last
operand value; True on an empty operand list. -/
def applyJLAnd (data : List (String × J)) : List J → J → Except String J
  | [], last => .ok last
  | a :: rest, _ => do
    let v ← applyJL data a
    if truthy v then applyJLAnd data rest v else .ok v
end

/-! ## backend/src/scoring.py -/

/-- Python float(x) on the value shapes configuration can contain.  Numeric
strings would also convert in Python; no configured spec uses them, so they
are modeled as a conversion error. -/
def pyFloatE : J → Except String ℚ
  | .int n => .ok (n : ℚ)
  | .num q => .ok q
  | .bool b => .ok (if b then 1 else 0)
  | .str _ => .error "float() numeric-string coercion not modeled"
  | _ => .error "TypeError: float()"

/-- Python int(x) (truncation toward zero for floats). -/
def pyIntE : J → Except String Int
  | .int n => .ok n
  | .bool b => .ok (if b then 1 else 0)
  | .num q => .ok (ratTrunc q)
  | .str _ => .error "int() numeric-string coercion not modeled"
  | _ => .error "TypeError: int()"

/-- ctx.get(key): missing keys and stored nulls both read as None. -/
def ctxGet (ctx : List (String × J)) (k : String) : J :=
  (objGet ctx k).getD .null

/-- The params dict of one feature spec; a none field is an absent key. -/
structure Params where
  confidence_key : Option J := none
  neutral_score_if_confidence_in : Option J := none
  neutral_score : Option J := none
  true_score : Option J := none
  false_score : Option J := none
  table : Option J := none
  buckets : Option J := none
  default_score : Option J := none
  min_x : Option J := none
  max_x : Option J := none
  min_score : Option J := none
  max_score : Option J := none
  clamp : Option J := none
  direction : Option J := none
  apply_foreigner_adjustment : Option J := none
deriving Repr

/-- One feature spec from S2 (scoring spec). -/
structure Feature where
  input_key : String
  method : String
  params : Params := {}
  weight : ℚ := 0
deriving Repr

/-- The slice of the S2 scoring spec the scoring engine reads. -/
structure S2 where
  foreign_im_shift_months : Option J := none
deriving Repr

def reqFloat (x : Option J) (k : String) : Except String ℚ :=
  match x with
  | none => .error ("KeyError: " ++ k)
  | some v => pyFloatE v

def scoreOfBucket (kvs : List (String × J)) : Except String ℚ :=
  match objGet kvs "score" with
  | none => .error "KeyError: score"
  | some v => pyFloatE v

/-- scoring._score_bucket loop: first bucket whose max / min bound holds. -/
def scoreBucketLoop (value : ℚ) (p : Params) : List J → Except String ℚ
  | [] => pyFloatE (p.default_score.getD (.int 70))
  | b :: rest =>
    match b with
    | .obj kvs =>
      let minCheck : Except String ℚ :=
        match (objGet kvs "min").bind asNumQ with
        | some mn =>
          if mn ≤ value then scoreOfBucket kvs else scoreBucketLoop value p rest
        | none => scoreBucketLoop value p rest
      match (objGet kvs "max").bind asNumQ with
      | some mx => if value ≤ mx then scoreOfBucket kvs else minCheck
      | none => minCheck
    | _ => scoreBucketLoop value p rest

/-- scoring._score_bucket.  A truthy non-list buckets value iterates over
keys/characters in Python, all of which are skipped as non-dicts. -/
def scoreBucket (value : ℚ) (p : Params) : Except String ℚ :=
  let bucketsJ := match p.buckets with
    | none => J.list []
    | some b => if truthy b then b else J.list []
  match bucketsJ with
  | .list bs => scoreBucketLoop value p bs
  | .obj _ => scoreBucketLoop value p []
  | .str _ => scoreBucketLoop value p []
  | _ => .error "TypeError: buckets not iterable"

/-- scoring._score_linear. -/
def scoreLinear (value : ℚ) (p : Params) : Except String ℚ := do
  let min_x ← reqFloat p.min_x "min_x"
  let max_x ← reqFloat p.max_x "max_x"
  let min_score ← reqFloat p.min_score "min_score"
  let max_score ← reqFloat p.max_score "max_score"
  let clampB := truthy (p.clamp.getD (.bool false))
  let direction := p.direction.getD (.str "higher_is_better")
  if max_x = min_x then pyFloatE (p.default_score.getD (.int 70))
  else
    let t := if pyEqB direction (.str "higher_is_better")
      then (value - min_x) / (max_x - min_x)
      else (max_x - value) / (max_x - min_x)
    let score := min_score + t * (max_score - min_score)
    .ok (if clampB then max min_score (min max_score score) else score)

/-- scoring._feature_score: a feature score, or none when the input key is
absent (triggers weight renormalization in the caller). -/
def featureScore (feature : Feature) (ctx : List (String × J)) (s2 : S2) :
    Except String (Option ℚ) :=
  let p := feature.params
  let neutralHit : Bool :=
    match p.confidence_key with
    | some (.str ck) =>
      match p.neutral_score_if_confidence_in with
      | some (.list neutrals) => neutrals.any (fun e => pyEqB (ctxGet ctx ck) e)
      | _ => false
    | _ => false
  if neutralHit then do
    let ns ← pyFloatE (p.neutral_score.getD (.int 70))
    .ok (some ns)
  else
    match ctxGet ctx feature.input_key with
    | .null => .ok none
    | raw =>
      if feature.method = "boolean" then
        match (if truthy raw then p.true_score else p.false_score) with
        | none => .error "KeyError: boolean score"
        | some v => do
          let s ← pyFloatE v
          .ok (some s)
      else if feature.method = "lookup" then
        let tableJ := match p.table with
          | none => J.obj []
          | some t => if truthy t then t else J.obj []
        let hit : Option J :=
          match tableJ, raw with
          | .obj kvs, .str s => objGet kvs s
          | _, _ => none
        match hit.bind asNumQ with
        | some q => .ok (some q)
        | none => do
          let s ← pyFloatE (p.default_score.getD (.int 70))
          .ok (some s)
      else if feature.method = "bucket" then do
        let v0 ← pyFloatE raw
        let v ←
          if pyEqB (p.apply_foreigner_adjustment.getD .null) (.str "im_shift_months") then do
            let shift ← pyFloatE (s2.foreign_im_shift_months.getD (.num 0))
            pure (max 0 (v0 - shift))
          else pure v0
        let s ← scoreBucket v p
        .ok (some s)
      else if feature.method = "linear" then do
        let v ← pyFloatE raw
        let s ← scoreLinear v p
        .ok (some s)
      else .error ("Unsupported feature method: " ++ feature.method)

/-- scoring._compute_component_score accumulation loop over the features. -/
def componentLoop (ctx : List (String × J)) (s2 : S2) :
    List Feature → ℚ → ℚ → Except String (ℚ × ℚ)
  | [], total, avail => .ok (total, avail)
  | f :: rest, total, avail => do
    match ← featureScore f ctx s2 with
    | none => componentLoop ctx s2 rest total avail
    | some fs => componentLoop ctx s2 rest (total + f.weight * fs) (avail + f.weight)

/-- scoring._compute_component_score: weighted average with weight
renormalization for absent features. -/
def computeComponentScore (feats : List Feature) (ctx : List (String × J)) (s2 : S2) :
    Except String ℚ := do
  let allWeight := (feats.map Feature.weight).sum
  let (total, avail) ← componentLoop ctx s2 feats 0 0
  if avail ≤ 0 then .ok (pyRound6 70)
  else
    let scale := if 0 < allWeight then allWeight / avail else 1
    .ok (pyRound6 (total * scale))

/-- One grade band of S2.grade_thresholds; a none field is an absent key. -/
structure Band where
  grade : Option J := none
  min_score : Option J := none
deriving Repr

/-- A band is considered only when its grade is a string and its min_score is
numeric (the isinstance guards of _grade_for_score). -/
def bandEntry (b : Band) : Option (String × ℚ) :=
  match b.grade, b.min_score.bind asNumQ with
  | some (.str g), some m => some (g, m)
  | _, _ => none

/-- scoring._grade_for_score loop: carries the best grade seen and its
min_score threshold, starting from the sentinel D / -1.0. -/
def gradeLoop (score : ℚ) : List Band → String → ℚ → String
  | [], bg, _ => bg
  | b :: rest, bg, bm =>
    match bandEntry b with
    | some (g, m) =>
      if m ≤ score ∧ bm ≤ m then gradeLoop score rest g m
      else gradeLoop score rest bg bm
    | none => gradeLoop score rest bg bm

/-- scoring._grade_for_score. -/
def gradeForScore (score : ℚ) (bands : List Band) : String :=
  gradeLoop score bands "D" (-1)

/-- One rule (risk flag / trade-off / what-if / template). -/
structure Rule where
  when : Option J := none
  priority : Int := 0
  outputs : List (String × J) := []
deriving Repr

/-- scoring._select_first_rule_by_priority: evaluation errors are swallowed
(try/except) and the rule is treated as non-matching. -/
def selectFirstRuleByPriority : List Rule → List (String × J) → Option Rule
  | [], _ => none
  | r :: rest, ctx =>
    match r.when with
    | none => selectFirstRuleByPriority rest ctx
    | some cond =>
      match applyJL ctx cond with
      | .ok v => if truthy v then some r else selectFirstRuleByPriority rest ctx
      | .error _ => selectFirstRuleByPriority rest ctx

def insertAfterLE (r : Rule) : List Rule → List Rule
  | [] => [r]
  | x :: xs => if r.priority < x.priority then r :: x :: xs else x :: insertAfterLE r xs

/-- Python sorted(rules, key=priority): stable ascending sort. -/
def sortByPriority (rules : List Rule) : List Rule :=
  rules.foldl (fun acc r => insertAfterLE r acc) []

/-- evaluate: risk-flag loop body.  There is no try/except here, so an
evaluation error propagates out of the whole loop. -/
def riskFlagsLoop (ctx : List (String × J)) :
    List Rule → List String → List (String × J) → Except String (List (String × J))
  | [], _, acc => .ok acc
  | r :: rest, seen, acc =>
    match r.when with
    | none => riskFlagsLoop ctx rest seen acc
    | some cond => do
      let v ← applyJL ctx cond
      if truthy v then
        match objGet r.outputs "risk_flag_id" with
        | some (.str rid) =>
          if rid ∈ seen then riskFlagsLoop ctx rest seen acc
          else riskFlagsLoop ctx rest (rid :: seen) (acc ++ [(rid, (objGet r.outputs "severity").getD .null)])
        | _ => riskFlagsLoop ctx rest seen acc
      else riskFlagsLoop ctx rest seen acc

/-- evaluate: risk-flag selection over rules sorted by ascending priority,
de-duplicated by risk_flag_id. -/
def riskFlags (rules : List Rule) (ctx : List (String × J)) :
    Except String (List (String × J)) :=
  riskFlagsLoop ctx (sortByPriority rules) [] []

/-- evaluate: trade-off loop body (first match wins); no try/except, so an
evaluation error propagates. -/
def tradeoffLoop (ctx : List (String × J)) :
    List Rule → Except String (Option String × Option String)
  | [] => .ok (none, none)
  | r :: rest =>
    match r.when with
    | none => tradeoffLoop ctx rest
    | some cond => do
      let v ← applyJL ctx cond
      if truthy v then
        let tag := match objGet r.outputs "tradeoff_tag" with
          | some (.str s) => some s
          | _ => none
        let mk := match objGet r.outputs "message_key" with
          | some (.str s) => some s
          | _ => none
        .ok (tag, mk)
      else tradeoffLoop ctx rest

/-- evaluate: trade-off tag selection over rules sorted by ascending
priority. -/
def tradeoffSelect (rules : List Rule) (ctx : List (String × J)) :
    Except String (Option String × Option String) :=
  tradeoffLoop ctx (sortByPriority rules)

/-! ## backend/src/benchmark_matcher.py -/

/-- Result of a benchmark match. -/
structure BenchmarkMatch where
  benchmark_rent_yen : Option Int
  benchmark_rent_yen_raw : Option Int
  benchmark_n_sources : Int
  benchmark_confidence : String
  matched_level : String
  adjustments_applied : Option (List (String × J)) := none
deriving Repr

/-- One entry of a benchmark index tier: median rent (kept only when the JSON
value is an int) and the _as_int-parsed n_rows. -/
structure TierEntry where
  benchmark_rent_yen_median : Option Int := none
  n_rows : Option Int := none
deriving Repr

/-- The three lookup tiers of the benchmark index, keyed by composite
strings. -/
structure BenchmarkIndex where
  by_pref_muni_layout_structure : String → Option TierEntry := fun _ => none
  by_pref_muni_layout : String → Option TierEntry := fun _ => none
  by_pref_layout : String → Option TierEntry := fun _ => none

/-- benchmark_matcher._get_hedonic_config: drill into
segmentation.bucket_rules.hedonic_adjustments, defaulting to empty. -/
def getHedonicConfig (spec : Option J) : List (String × J) :=
  match spec with
  | some (.obj kvs) =>
    match objGet kvs "segmentation" with
    | some (.obj seg) =>
      match objGet seg "bucket_rules" with
      | some (.obj rules) =>
        match objGet rules "hedonic_adjustments" with
        | some (.obj ha) => ha
        | _ => []
      | _ => []
    | _ => []
  | _ => []

def lookupQ (l : List (String × ℚ)) (k : String) : Option ℚ :=
  match l with
  | [] => none
  | (k', v) :: rest => if k' = k then some v else lookupQ rest k

def setAssoc (l : List (String × ℚ)) (k : String) (v : ℚ) : List (String × ℚ) :=
  match l with
  | [] => []
  | (k', v') :: rest => if k' = k then (k, v) :: rest else (k', v') :: setAssoc rest k v

/-- Spec-driven overrides of a factor table: only known keys with numeric
values are applied. -/
def updateFactors (base : List (String × ℚ)) (ov : Option J) : List (String × ℚ) :=
  match ov with
  | some (.obj kvs) =>
    kvs.foldl (fun acc kv =>
      match asNumQ kv.2 with
      | some q => if (lookupQ acc kv.1).isSome then setAssoc acc kv.1 q else acc
      | none => acc) base
  | _ => base

def confScale (c : String) : ℚ :=
  if c = "high" then 1 else if c = "mid" then 0.7 else if c = "low" then 0.5 else 0

/-- sample_scale(n) = clamp((n-1)/4, 0, 1). -/
def sampleScale (n : Int) : ℚ := max 0 (min 1 (((n : ℚ) - 1) / 4))

def levelScale (ml : String) : ℚ := if ml = "muni_structure_level" then 0.6 else 1

def strengthBase (hedonic : List (String × J)) : ℚ :=
  ((objGet hedonic "strength").bind asNumQ).getD 0.35

/-- The clamped hedonic strength computed in _apply_adjustment. -/
def hedonicStrength (hedonic : List (String × J)) (n : Int) (conf ml : String) : ℚ :=
  max 0 (min 1 (strengthBase hedonic * confScale conf * sampleScale n * levelScale ml))

/-- _shrink_factor: pull a factor toward 1 in log space.  The transcendental
core exp(log f * strength) is the shrink parameter; the guards (non-positive
factors map to 1, strength greater or equal 1 is the identity) are the
code's. -/
def shrinkFactor (shrink : ℚ → ℚ → ℚ) (strength f : ℚ) : ℚ :=
  if f ≤ 0 then 1
  else if 1 ≤ strength then f
  else shrink strength f

/-- benchmark_matcher._apply_adjustment (closure inside match_benchmark_rent):
bounded hedonic adjustment of a matched raw median rent. -/
def applyAdjustment (shrink : ℚ → ℚ → ℚ) (hedonic : List (String × J))
    (layout_type : String) (building_structure : Option String)
    (area_sqm : Option ℚ) (building_age_years : Option Int)
    (station_walk_min : Option Int) (orientation : Option String)
    (bathroom_toilet_separate : Option Bool)
    (raw_yen : Int) (n_sources : Int) (confidence : String) (matched_level : String) :
    BenchmarkMatch :=
  match objGet hedonic "enabled" with
  | some (.bool false) =>
    ⟨some raw_yen, some raw_yen, n_sources, confidence, matched_level, none⟩
  | _ =>
    let total_min := ((objGet hedonic "total_multiplier_min").bind asNumQ).getD 0.85
    let total_max := ((objGet hedonic "total_multiplier_max").bind asNumQ).getD 1.15
    let strength := hedonicStrength hedonic n_sources confidence matched_level
    if strength ≤ 0 then
      ⟨some raw_yen, some raw_yen, n_sources, confidence, matched_level, none⟩
    else
      let age_factors := updateFactors
        [("0_5", 1.05), ("6_10", 1.0), ("11_20", 0.92), ("ge21", 0.82)]
        (objGet hedonic "building_age_bucket_multipliers")
      let walk_factors := updateFactors
        [("le5", 1.03), ("6_10", 1.0), ("11_15", 0.93), ("ge16", 0.87)]
        (objGet hedonic "station_walk_bucket_multipliers")
      let layout_avg_area := updateFactors
        [("1R", 20.0), ("1K", 22.0), ("1DK", 28.0), ("1LDK", 38.0)]
        (objGet hedonic "layout_avg_area_sqm")
      let area_elasticity := ((objGet hedonic "area_elasticity").bind asNumQ).getD 0.6
      let ageStep : ℚ × List (String × J) :=
        match building_age_years with
        | some age =>
          let bucket := if age ≤ 5 then "0_5"
            else if age ≤ 10 then "6_10"
            else if age ≤ 20 then "11_20" else "ge21"
          let fraw := (lookupQ age_factors bucket).getD 1.0
          let f := shrinkFactor shrink strength fraw
          (f, [("building_age_years", .int age), ("building_age_bucket", .str bucket),
               ("building_age_factor_raw", .num fraw), ("building_age_factor", .num f)])
        | none => (1, [])
      let walkStep : ℚ × List (String × J) :=
        match station_walk_min with
        | some walk =>
          let bucket := if walk ≤ 5 then "le5"
            else if walk ≤ 10 then "6_10"
            else if walk ≤ 15 then "11_15" else "ge16"
          let fraw := (lookupQ walk_factors bucket).getD 1.0
          let f := shrinkFactor shrink strength fraw
          (f, [("station_walk_min", .int walk), ("station_walk_bucket", .str bucket),
               ("station_walk_factor_raw", .num fraw), ("station_walk_factor", .num f)])
        | none => (1, [])
      let avg_sqm := (lookupQ layout_avg_area layout_type).getD 0.0
      let areaStep : ℚ × List (String × J) :=
        match area_sqm with
        | some sqm =>
          if 0 < sqm ∧ 0 < avg_sqm ∧ area_elasticity ≠ 0 then
            let fraw := 1.0 + area_elasticity * (sqm - avg_sqm) / avg_sqm
            let f := shrinkFactor shrink strength fraw
            (f, [("area_sqm", .num sqm), ("area_avg_sqm", .num avg_sqm),
                 ("area_elasticity", .num area_elasticity),
                 ("area_factor_raw", .num fraw), ("area_factor", .num f)])
          else (1, [])
        | none => (1, [])
      let structStep : ℚ × List (String × J) :=
        if matched_level ≠ "muni_structure_level" then
          let sk0 := pyLower (pyStrip (building_structure.getD ""))
          let struct_key := if sk0 = "" then "other" else sk0
          let struct_defaults := updateFactors
            [("wood", 0.90), ("light_steel", 0.94), ("steel", 0.98),
             ("rc", 1.08), ("src", 1.12), ("other", 1.00)]
            (objGet hedonic "building_structure_multipliers")
          let fraw := (lookupQ struct_defaults struct_key).getD
            ((lookupQ struct_defaults "other").getD 1)
          let f := shrinkFactor shrink strength fraw
          (f, [("building_structure_factor_raw", .num fraw),
               ("building_structure_factor", .num f),
               ("building_structure_key", .str struct_key)])
        else (1, [])
      let bath_defaults := updateFactors [("true", 1.05), ("false", 0.95)]
        (objGet hedonic "bathroom_toilet_separate_multipliers")
      let bathStep : ℚ × List (String × J) :=
        match bathroom_toilet_separate with
        | some b =>
          let key := if b then "true" else "false"
          let fraw := (lookupQ bath_defaults key).getD 1
          let f := shrinkFactor shrink strength fraw
          (f, [("bathroom_toilet_separate_factor_raw", .num fraw),
               ("bathroom_toilet_separate_factor", .num f),
               ("bathroom_toilet_separate_key", .str key)])
        | none => (1, [])
      let orient_defaults := updateFactors
        [("S", 1.05), ("SE", 1.03), ("SW", 1.02), ("E", 1.00), ("W", 0.99),
         ("NE", 0.97), ("NW", 0.97), ("N", 0.94), ("UNKNOWN", 1.00)]
        (objGet hedonic "orientation_multipliers")
      let ok0 := pyUpper (pyStrip (match orientation with
        | none => "UNKNOWN"
        | some s => if s = "" then "UNKNOWN" else s))
      let orient_key := if (lookupQ orient_defaults ok0).isSome then ok0 else "UNKNOWN"
      let orient_fraw := (lookupQ orient_defaults orient_key).getD 1
      let orient_f := shrinkFactor shrink strength orient_fraw
      let orientAdj : List (String × J) :=
        [("orientation_factor_raw", .num orient_fraw),
         ("orientation_factor", .num orient_f),
         ("orientation_key", .str orient_key)]
      let multiplier_unclamped :=
        ageStep.1 * walkStep.1 * areaStep.1 * structStep.1 * bathStep.1 * orient_f
      let multiplier := min (max multiplier_unclamped total_min) total_max
      let adjusted := roundHalfEven ((raw_yen : ℚ) * multiplier)
      let adj := ageStep.2 ++ walkStep.2 ++ areaStep.2 ++ structStep.2 ++ bathStep.2 ++ orientAdj
      let adjustments_applied : Option (List (String × J)) :=
        if adj.isEmpty then none
        else some (adj ++
          [("hedonic_strength", .num strength),
           ("multiplier_total_unclamped", .num multiplier_unclamped),
           ("multiplier_total_clamped", .num multiplier),
           ("total_multiplier_min", .num total_min),
           ("total_multiplier_max", .num total_max),
           ("multiplier_total", .num multiplier),
           ("benchmark_rent_yen_raw", .int raw_yen),
           ("benchmark_rent_yen_adjusted", .int adjusted)])
      ⟨some adjusted, some raw_yen, n_sources, confidence, matched_level, adjustments_applied⟩

/-- benchmark_matcher.match_benchmark_rent: tiered lookup, structure-aware
tier first, falling back to municipality then prefecture. -/
def matchBenchmarkRent (shrink : ℚ → ℚ → ℚ) (prefecture : String)
    (municipality : Option String) (layout_type : String)
    (building_structure : Option String) (idx : BenchmarkIndex)
    (area_sqm : Option ℚ) (building_age_years : Option Int)
    (station_walk_min : Option Int) (orientation : Option String)
    (bathroom_toilet_separate : Option Bool) (benchmark_spec : Option J) :
    BenchmarkMatch :=
  let hedonic := getHedonicConfig benchmark_spec
  let muni := pyStrip (municipality.getD "")
  let structureVal := pyStrip (building_structure.getD "")
  let adj := fun (raw n : Int) (conf ml : String) =>
    applyAdjustment shrink hedonic layout_type building_structure area_sqm
      building_age_years station_walk_min orientation bathroom_toilet_separate raw n conf ml
  let noMatch : BenchmarkMatch := ⟨none, none, 0, "none", "none", none⟩
  let step3 : BenchmarkMatch :=
    match idx.by_pref_layout (prefecture ++ "|" ++ layout_type) with
    | some e =>
      match e.benchmark_rent_yen_median with
      | some yen => adj yen (e.n_rows.getD 0) "mid" "pref_level"
      | none => noMatch
    | none => noMatch
  let step2 : BenchmarkMatch :=
    if muni ≠ "" then
      match idx.by_pref_muni_layout (prefecture ++ "|" ++ muni ++ "|" ++ layout_type) with
      | some e =>
        match e.benchmark_rent_yen_median with
        | some yen =>
          let n := e.n_rows.getD 0
          adj yen n (if 2 ≤ n then "high" else "mid") "muni_level"
        | none => step3
      | none => step3
    else step3
  if muni ≠ "" ∧ structureVal ≠ "" ∧ structureVal ≠ "other" ∧ structureVal ≠ "all" then
    match idx.by_pref_muni_layout_structure
        (prefecture ++ "|" ++ muni ++ "|" ++ layout_type ++ "|" ++ structureVal) with
    | some e =>
      match e.benchmark_rent_yen_median with
      | some yen =>
        let n := e.n_rows.getD 0
        if 2 ≤ n then adj yen n "high" "muni_structure_level" else step2
      | none => step2
    | none => step2
  else step2

/-! ## backend/src/evaluate.py (slices) -/

/-- evaluate._estimate_benchmark_mgmt_fee_yen: conservative management-fee
estimate added to a rent-only benchmark. -/
def estimateBenchmarkMgmtFee (benchmark_rent_yen input_mgmt_fee_yen : Int)
    (rate_of_rent : ℚ := 0.05) (cap_yen : Int := 20000) : Int :=
  if benchmark_rent_yen ≤ 0 then 0
  else if input_mgmt_fee_yen ≤ 0 then 0
  else
    let est := roundHalfEven ((benchmark_rent_yen : ℚ) * rate_of_rent)
    let est2 := max 0 (min est cap_yen)
    min input_mgmt_fee_yen est2

/-- matched_level values produced by the live (scraped) benchmark path. -/
def liveLevels : List String :=
  ["suumo_live", "suumo_relaxed", "homes_live", "homes_relaxed",
   "chintai_live", "chintai_relaxed"]

/-- evaluate: the mgmt-fee-adjusted benchmark monthly fixed cost slice.
Returns (benchmark_monthly_fixed_cost_yen, benchmark_monthly_fixed_cost_yen_raw,
benchmark_mgmt_fee_estimate_yen). -/
def benchmarkMonthlyFixedCost (bm : BenchmarkMatch) (payload : List (String × J)) :
    Except String (Option Int × Option Int × Int) := do
  let is_live := liveLevels.contains bm.matched_level
  match bm.benchmark_rent_yen with
  | none => pure (none, bm.benchmark_rent_yen_raw, 0)
  | some b =>
    if is_live then pure (some b, bm.benchmark_rent_yen_raw, 0)
    else do
      let mgmtJ := ctxGet payload "mgmt_fee_yen"
      let mgmt ← if truthy mgmtJ then pyIntE mgmtJ else pure 0
      let est := estimateBenchmarkMgmtFee b mgmt
      if 0 < est then
        pure (some (b + est), bm.benchmark_rent_yen_raw.map (· + est), est)
      else
        pure (some b, bm.benchmark_rent_yen_raw, est)

/-- evaluate: initial_multiple derivation with its division guard (used both
in the base pipeline and in every what-if recomputation). -/
def initialMultiple (initial_cost_total : ℚ) (monthly_fixed_cost_yen : Int) : ℚ :=
  if 0 < monthly_fixed_cost_yen then initial_cost_total / (monthly_fixed_cost_yen : ℚ)
  else 0

/-- evaluate: rent_delta_ratio derivation with its guard (benchmark value
truthy and positive), shared by the base pipeline and what-if. -/
def rentDeltaRatio (monthly_fixed_cost_yen : Int) (bmfc : Option Int) : ℚ :=
  match bmfc with
  | some b => if 0 < b then ((monthly_fixed_cost_yen : ℚ) - (b : ℚ)) / (b : ℚ) else 0
  | none => 0

/-- One field declaration of the S1 input schema. -/
structure FieldSpec where
  key : String
  ftype : Option String := none
  constraints_min : Option J := none
  constraints_max : Option J := none
  enum_values : Option J := none
  unit : Option J := none
deriving Repr

/-- The S1 input schema slice _validate_input reads. -/
structure S1 where
  fields : List FieldSpec := []
  mvp_required_fields : List String := []
deriving Repr

/-- str(unit or "none"): falsy units read as "none". -/
def unitName (u : Option J) : String :=
  match u with
  | none => "none"
  | some v => if truthy v then pyStr v else "none"

/-- evaluate._validate_input: per-field type and enum checks. -/
def typeAndEnumCheck (f : FieldSpec) (k : String) (v : J) : Except String Unit :=
  match f.ftype with
  | some t =>
    if t = "integer" then
      match v with
      | .int _ => .ok ()
      | .bool _ => .ok ()
      | _ => .error ("Expected integer for " ++ k)
    else if t = "number" then
      match v with
      | .int _ => .ok ()
      | .num _ => .ok ()
      | .bool _ => .ok ()
      | _ => .error ("Expected number for " ++ k)
    else if t = "boolean" then
      match v with
      | .bool _ => .ok ()
      | _ => .error ("Expected boolean for " ++ k)
    else if t = "string" ∨ t = "enum" then
      match v with
      | .str s =>
        if t = "enum" then
          match f.enum_values with
          | some (.list ev) =>
            if ev.any (fun e => pyEqB e (.str s)) then .ok ()
            else .error ("Invalid enum value for " ++ k)
          | _ => .ok ()
        else .ok ()
      | _ => .error ("Expected string for " ++ k)
    else .error ("Unsupported field type in S1 for " ++ k)
  | none => .error ("Unsupported field type in S1 for " ++ k)

/-- evaluate._validate_input: numeric range checks.  The min bound is always
enforced; the max bound is skipped when the declared unit is yen. -/
def rangeCheck (f : FieldSpec) (k : String) (v : J) : Except String Unit := do
  match f.constraints_min.bind asNumQ, asNumQ v with
  | some mn, some x => if x < mn then Except.error (k ++ " below min") else pure ()
  | _, _ => pure ()
  let enforce_max := unitName f.unit ≠ "yen"
  if enforce_max then
    match f.constraints_max.bind asNumQ, asNumQ v with
    | some mx, some x => if mx < x then Except.error (k ++ " above max") else pure ()
    | _, _ => pure ()
  else pure ()

/-- evaluate._validate_input: the whole per-field check for one payload
item. -/
def checkField (f : FieldSpec) (k : String) (v : J) : Except String Unit := do
  typeAndEnumCheck f k v
  rangeCheck f k v

/-- field_by_key dict comprehension: a later duplicate key wins. -/
def fieldByKey (fields : List FieldSpec) (k : String) : Option FieldSpec :=
  fields.reverse.find? (fun f => f.key == k)

def validateLoop (s1 : S1) : List (String × J) → Except String Unit
  | [] => .ok ()
  | (k, v) :: rest => do
    match fieldByKey s1.fields k with
    | none => validateLoop s1 rest
    | some f => do
      checkField f k v
      validateLoop s1 rest

/-- evaluate._validate_input. -/
def validateInput (payload : List (String × J)) (s1 : S1) : Except String Unit := do
  let allowed := (s1.fields.filter (fun f => f.key ≠ "")).map FieldSpec.key
  if payload.any (fun kv => !allowed.contains kv.1) then Except.error "Unknown input keys"
  else pure ()
  if s1.mvp_required_fields.any (fun k => (objGet payload k).isNone) then
    Except.error "Missing required keys"
  else pure ()
  if pyEqB (ctxGet payload "hub_station") (.str "other")
      && (objGet payload "hub_station_other_name").isNone then
    Except.error "Missing required key: hub_station_other_name"
  else pure ()
  validateLoop s1 payload

/-- evaluate what-if block local _as_int: None reads as 0. -/
def asIntOr0 : J → Except String Int
  | .null => .ok 0
  | v => pyIntE v

/-- evaluate what-if action application: mutate the target key and propagate
the numeric delta into initial_cost_total_yen for breakdown fee keys.
Returns none when the action type is unknown (the loop skips it); the caller
supplies the action value (with its Python .get default already applied). -/
def applyWhatIfAction (payload : List (String × J)) (target_key : String)
    (action_type : String) (value : J) : Except String (Option (List (String × J))) := do
  let old_target := ctxGet payload target_key
  let old_target_int ← asIntOr0 old_target
  let step ←
    (if action_type = "delta_yen" then do
      let delta ← pyIntE value
      let cur ← asIntOr0 (ctxGet payload target_key)
      pure (some (max 0 (cur + delta)))
    else if action_type = "set_zero" then pure (some (0 : Int))
    else if action_type = "scale" then do
      let factor ← pyFloatE value
      pure (some (max 0 (roundHalfEven ((old_target_int : ℚ) * factor))))
    else pure none)
  match step with
  | none => pure none
  | some new_value => do
    let p1 := setKey payload target_key (.int new_value)
    if target_key ≠ "initial_cost_total_yen" ∧ strEndsWith target_key "_yen"
        ∧ (objGet p1 "initial_cost_total_yen").isSome then do
      let curTarget ← asIntOr0 (ctxGet p1 target_key)
      let delta_total := curTarget - old_target_int
      let curTotal ← asIntOr0 (ctxGet p1 "initial_cost_total_yen")
      pure (some (setKey p1 "initial_cost_total_yen" (.int (max 0 (curTotal + delta_total)))))
    else pure (some p1)

def reqKey (p : List (String × J)) (k : String) : Except String J :=
  match objGet p k with
  | some v => .ok v
  | none => .error ("KeyError: " ++ k)

/-- evaluate what-if recomputation slice: rebuild the context from the
mutated payload and recompute only the cost component score. -/
def whatIfCostScore (costFeats : List Feature) (s2 : S2) (ctx : List (String × J))
    (benchmark_monthly_fixed_cost_yen : Option Int) (im_market_avg foreigner_shift : ℚ)
    (new_payload : List (String × J)) : Except String ℚ := do
  let rent ← pyIntE (← reqKey new_payload "rent_yen")
  let mgmt ← pyIntE (← reqKey new_payload "mgmt_fee_yen")
  let new_monthly := rent + mgmt
  let totQ ← pyFloatE (← reqKey new_payload "initial_cost_total_yen")
  let new_im := initialMultiple totQ new_monthly
  let new_rdr := rentDeltaRatio new_monthly benchmark_monthly_fixed_cost_yen
  let new_eff_foreigner := max 0 (new_im - foreigner_shift)
  let ctx1 := new_payload.foldl (fun c kv => setKey c kv.1 kv.2) ctx
  let ctx2 := setKey ctx1 "monthly_fixed_cost_yen" (.int new_monthly)
  let ctx3 := setKey ctx2 "rent_delta_ratio" (.num new_rdr)
  let ctx4 := setKey ctx3 "initial_multiple" (.num new_im)
  let ctx5 := setKey ctx4 "initial_multiple_market_delta" (.num (new_im - im_market_avg))
  let ctx6 := setKey ctx5 "initial_multiple_market_delta_foreigner"
    (.num (new_eff_foreigner - im_market_avg))
  computeComponentScore costFeats ctx6 s2

/-! ## Spec-side definitions and concrete fixtures -/

/-- Grade bands that qualify for a score: well-formed, threshold at most the
score, and at least the -1.0 loop sentinel. -/
def qualBands (score : ℚ) (bands : List Band) : List (String × ℚ) :=
  bands.filterMap (fun b =>
    (bandEntry b).bind (fun p => if p.2 ≤ score ∧ -1 ≤ p.2 then some p else none))

/-- The last element attaining the maximum threshold (spec-side description
of the grade tie-break). -/
def lastArgmax : List (String × ℚ) → Option (String × ℚ)
  | [] => none
  | p :: rest =>
    match lastArgmax rest with
    | none => some p
    | some q => if p.2 ≤ q.2 then some q else some p

/-- Left-to-right maximum scan in which later elements win ties. -/
def bestPair (p : String × ℚ) : List (String × ℚ) → String × ℚ
  | [] => p
  | q :: rest => bestPair (if p.2 ≤ q.2 then q else p) rest

/-- The plain weighted combination of the individual feature scores with no
renormalization; errors when any feature score is absent. -/
def plainWeightedScore (feats : List Feature) (ctx : List (String × J)) (s2 : S2) :
    Except String ℚ :=
  match feats with
  | [] => .ok 0
  | f :: rest => do
    let s ← featureScore f ctx s2
    let restSum ← plainWeightedScore rest ctx s2
    match s with
    | some sc => pure (f.weight * sc + restSum)
    | none => Except.error "absent feature score"

/-- Identity shrink model (used to instantiate witnesses). -/
def idShrink : ℚ → ℚ → ℚ := fun _ f => f

/-- A rule whose condition uses an operator the evaluator does not
support. -/
def badRule : Rule :=
  { when := some (.obj [("bogus", .int 1)]), priority := 0,
    outputs := [("risk_flag_id", .str "x")] }

/-- Schema with a single yen-unit integer field. -/
def yenFieldS1 : S1 :=
  { fields := [{ key := "deposit_yen", ftype := some "integer",
                 constraints_min := some (.int 0),
                 constraints_max := some (.int 1000000),
                 unit := some (.str "yen") }] }

/-- Benchmark index with a structure-aware entry backed by two samples and a
municipality entry backed by three. -/
def tierIdxA : BenchmarkIndex :=
  { by_pref_muni_layout_structure := fun k =>
      if k = "tokyo|shinjuku|1LDK|rc" then some ⟨some 160000, some 2⟩ else none,
    by_pref_muni_layout := fun k =>
      if k = "tokyo|shinjuku|1LDK" then some ⟨some 150000, some 3⟩ else none,
    by_pref_layout := fun _ => none }

/-- Cost feature reading initial_multiple through a linear score. -/
def imLinearFeat : Feature :=
  { input_key := "initial_multiple", method := "linear",
    params := { min_x := some (.int 0), max_x := some (.int 10),
                min_score := some (.int 0), max_score := some (.int 100),
                clamp := some (.bool true),
                direction := some (.str "lower_is_better") },
    weight := 1 }

/-- Simple boolean feature with full weight. -/
def boolFeat : Feature :=
  { input_key := "x", method := "boolean",
    params := { true_score := some (.int 100), false_score := some (.int 0) },
    weight := 1 }

def payloadC6 : List (String × J) :=
  [("rent_yen", .int 10000), ("mgmt_fee_yen", .int 0),
   ("initial_cost_total_yen", .int 10000), ("reikin_yen", .int 5000)]

/-- Base evaluation context consistent with payloadC6 (benchmark absent,
market average 5, foreigner shift 1). -/
def ctxC6 : List (String × J) :=
  payloadC6 ++
  [("monthly_fixed_cost_yen", .int 10000), ("initial_multiple", .num 1),
   ("rent_delta_ratio", .num 0), ("initial_multiple_market_delta", .num (1 - 5)),
   ("initial_multiple_market_delta_foreigner", .num (0 - 5))]

def payloadCex : List (String × J) :=
  [("rent_yen", .int 10000), ("mgmt_fee_yen", .int 0),
   ("initial_cost_total_yen", .int 10000)]

/-- Base evaluation context consistent with payloadCex. -/
def ctxCex : List (String × J) :=
  payloadCex ++
  [("monthly_fixed_cost_yen", .int 10000), ("initial_multiple", .num 1),
   ("rent_delta_ratio", .num 0), ("initial_multiple_market_delta", .num (1 - 5)),
   ("initial_multiple_market_delta_foreigner", .num (0 - 5))]

/-! ## Helper lemmas -/

theorem pure_eq_ok {α : Type} (a : α) : (pure a : Except String α) = Except.ok a := rfl

theorem ok_bind {α β : Type} (a : α) (f : α → Except String β) :
    (Except.ok a >>= f) = f a := rfl

theorem error_bind {α β : Type} (e : String) (f : α → Except String β) :
    ((Except.error e : Except String α) >>= f) = Except.error e := rfl

theorem roundHalfEven_nonneg {q : ℚ} (hq : 0 ≤ q) : 0 ≤ roundHalfEven q := by
  have h0 : (0 : ℤ) ≤ ⌊q⌋ := Int.floor_nonneg.mpr hq
  unfold roundHalfEven
  dsimp only
  split
  · exact h0
  · split
    · omega
    · split <;> omega

theorem roundHalfEven_intCast (n : ℤ) : roundHalfEven (n : ℚ) = n := by
  unfold roundHalfEven
  simp

theorem pyRound6_intCast (n : ℤ) : pyRound6 (n : ℚ) = n := by
  unfold pyRound6
  have h : ((n : ℚ) * (10 : ℚ) ^ 6) = ((n * 1000000 : ℤ) : ℚ) := by push_cast; ring
  rw [h, roundHalfEven_intCast]
  push_cast
  field_simp
  left
  norm_num

/-! ## C10 -/

/-- C10: evaluating the expression with operator and over an empty operand
list returns boolean True against any context. -/
theorem C10_and_empty_list_is_true (data : List (String × J)) :
    applyJL data (J.obj [("and", J.list [])]) = .ok (.bool true) := by
  simp [applyJL, applyJLOp, applyJLAnd]

/-! ## C4 -/

/-- C4: when the hedonic config disables adjustment or the computed hedonic
strength is not positive, the returned BenchmarkMatch keeps the raw rent as
the adjusted rent and carries no adjustment record. -/
theorem C4_no_adjustment_when_disabled_or_zero_strength
    (shrink : ℚ → ℚ → ℚ) (hedonic : List (String × J)) (layout_type : String)
    (building_structure : Option String) (area_sqm : Option ℚ)
    (building_age_years station_walk_min : Option Int) (orientation : Option String)
    (bath : Option Bool) (raw n : Int) (conf ml : String)
    (h : objGet hedonic "enabled" = some (J.bool false) ∨
         hedonicStrength hedonic n conf ml ≤ 0) :
    applyAdjustment shrink hedonic layout_type building_structure area_sqm
        building_age_years station_walk_min orientation bath raw n conf ml
      = ⟨some raw, some raw, n, conf, ml, none⟩ := by
  rcases h with h | h
  · unfold applyAdjustment
    rw [h]
  · unfold applyAdjustment
    split
    · rfl
    · dsimp only
      rw [if_pos h]

/-- C4 witness: a concrete disabled-config instance. -/
theorem C4_witness :
    applyAdjustment idShrink [("enabled", .bool false)] "1LDK" (some "rc")
        (some 30) (some 8) (some 7) (some "S") (some true) 160000 2 "high" "muni_structure_level"
      = ⟨some 160000, some 160000, 2, "high", "muni_structure_level", none⟩ :=
  C4_no_adjustment_when_disabled_or_zero_strength idShrink _ _ _ _ _ _ _ _ _ _ _ _
    (Or.inl rfl)

/-! ## C9 -/

/-- C9: the derived-ratio computations guard their divisions: the initial
multiple is 0 whenever the monthly fixed cost is 0, and the rent delta ratio
is 0 (not an error, not null) whenever there is no positive benchmark
monthly fixed cost.  The what-if recomputation (whatIfCostScore) uses these
same two definitions. -/
theorem C9_division_guards (tot : ℚ) (monthly : Int) (b : Int) :
    (monthly = 0 → initialMultiple tot monthly = 0) ∧
    rentDeltaRatio monthly none = 0 ∧
    (b ≤ 0 → rentDeltaRatio monthly (some b) = 0) := by
  refine ⟨?_, rfl, ?_⟩
  · intro h
    simp [initialMultiple, h]
  · intro h
    simp only [rentDeltaRatio]
    rw [if_neg (by omega)]

/-- C9 witness: concrete zero-cost and absent-benchmark instances. -/
theorem C9_witness :
    initialMultiple 5000000 0 = 0 ∧ rentDeltaRatio 120000 none = 0 ∧
    rentDeltaRatio 120000 (some 0) = 0 :=
  ⟨(C9_division_guards 5000000 0 0).1 rfl, (C9_division_guards 5000000 0 0).2.1,
   (C9_division_guards 5000000 120000 0).2.2 le_rfl⟩

/-! ## C2 -/

/-- C2 counterexample: a rule whose when expression raises is NOT skipped in
risk-flag and trade-off selection — the error aborts the whole selection
(there is no try/except in those two loops, unlike the template selector). -/
theorem C2_counterexample :
    riskFlags [badRule] [] = .error "Unsupported op: bogus" ∧
    tradeoffSelect [badRule] [] = .error "Unsupported op: bogus" := by
  constructor <;>
    simp [riskFlags, tradeoffSelect, sortByPriority, insertAfterLE,
      riskFlagsLoop, tradeoffLoop, badRule, applyJL, applyJLOp, error_bind]

/-- C2 amended: error swallowing holds only for report-template selection
(scoring._select_first_rule_by_priority); in risk-flag and trade-off
selection an evaluation error propagates and aborts the selection. -/
theorem C2_error_swallowing_only_in_template_selection :
    (∀ (r : Rule) (rest : List Rule) (ctx : List (String × J)) (w : J) (e : String),
      r.when = some w → applyJL ctx w = .error e →
      selectFirstRuleByPriority (r :: rest) ctx = selectFirstRuleByPriority rest ctx) ∧
    (∀ (r : Rule) (ctx : List (String × J)) (w : J) (e : String),
      r.when = some w → applyJL ctx w = .error e →
      riskFlags [r] ctx = .error e) ∧
    (∀ (r : Rule) (ctx : List (String × J)) (w : J) (e : String),
      r.when = some w → applyJL ctx w = .error e →
      tradeoffSelect [r] ctx = .error e) := by
  refine ⟨?_, ?_, ?_⟩ <;> intro r
  · intro rest ctx w e hw he
    simp [selectFirstRuleByPriority, hw, he]
  · intro ctx w e hw he
    simp [riskFlags, sortByPriority, insertAfterLE, riskFlagsLoop, hw, he, error_bind]
  · intro ctx w e hw he
    simp [tradeoffSelect, sortByPriority, insertAfterLE, tradeoffLoop, hw, he, error_bind]

/-- C2 witness: concrete instances of the three amended facts. -/
theorem C2_witness :
    selectFirstRuleByPriority [badRule] [] = selectFirstRuleByPriority [] [] ∧
    riskFlags [badRule] [] = .error "Unsupported op: bogus" ∧
    tradeoffSelect [badRule] [] = .error "Unsupported op: bogus" := by
  have he : applyJL [] (J.obj [("bogus", J.int 1)]) = .error "Unsupported op: bogus" := by
    simp [applyJL, applyJLOp]
  exact ⟨C2_error_swallowing_only_in_template_selection.1 badRule [] [] _ _ rfl he,
    C2_error_swallowing_only_in_template_selection.2.1 badRule [] _ _ rfl he,
    C2_error_swallowing_only_in_template_selection.2.2 badRule [] _ _ rfl he⟩

/-! ## C7 -/

/-- C7 counterexample: a yen-unit field with a value below its declared min
IS rejected — range enforcement is not skipped wholesale for currency
fields. -/
theorem C7_counterexample :
    validateInput [("deposit_yen", J.int (-5))] yenFieldS1
      = .error "deposit_yen below min" := rfl

/-- C7 amended: for fields whose declared unit is yen only the max bound is
skipped; the min bound is enforced for every numeric field, and non-yen
numeric fields enforce both bounds. -/
theorem C7_yen_fields_skip_only_max
    (k : String) (mn mx : ℚ) (n : Int) (u : Option J) (hk : k ≠ "") :
    (unitName u = "yen" → mn ≤ (n : ℚ) →
      validateInput [(k, .int n)]
        ⟨[⟨k, some "integer", some (.num mn), some (.num mx), none, u⟩], []⟩ = .ok ()) ∧
    (unitName u ≠ "yen" → mn ≤ (n : ℚ) → (n : ℚ) ≤ mx →
      validateInput [(k, .int n)]
        ⟨[⟨k, some "integer", some (.num mn), some (.num mx), none, u⟩], []⟩ = .ok ()) ∧
    (unitName u ≠ "yen" → mn ≤ (n : ℚ) → mx < (n : ℚ) →
      validateInput [(k, .int n)]
        ⟨[⟨k, some "integer", some (.num mn), some (.num mx), none, u⟩], []⟩
        = .error (k ++ " above max")) ∧
    ((n : ℚ) < mn →
      validateInput [(k, .int n)]
        ⟨[⟨k, some "integer", some (.num mn), some (.num mx), none, u⟩], []⟩
        = .error (k ++ " below min")) := by
  have hcommon : validateInput [(k, .int n)]
      ⟨[⟨k, some "integer", some (.num mn), some (.num mx), none, u⟩], []⟩
      = checkField ⟨k, some "integer", some (.num mn), some (.num mx), none, u⟩ k (.int n)
          >>= fun _ => Except.ok () := by
    by_cases hhub : k = "hub_station"
    · subst hhub
      simp [validateInput, hk, ctxGet, objGet, validateLoop, fieldByKey, pyEqB, asNumQ]
    · simp [validateInput, hk, ctxGet, objGet, validateLoop, fieldByKey, pyEqB, asNumQ, hhub]
  have hte : typeAndEnumCheck ⟨k, some "integer", some (.num mn), some (.num mx), none, u⟩
      k (.int n) = .ok () := by
    simp [typeAndEnumCheck]
  refine ⟨?_, ?_, ?_, ?_⟩
  · intro hu hmn
    rw [hcommon]
    have : rangeCheck ⟨k, some "integer", some (.num mn), some (.num mx), none, u⟩ k (.int n)
        = .ok () := by
      simp [rangeCheck, asNumQ, not_lt.mpr hmn, hu, pure_eq_ok, ok_bind, error_bind]
    simp [checkField, hte, ok_bind, error_bind, pure_eq_ok, this]
  · intro hu hmn hmx
    rw [hcommon]
    have : rangeCheck ⟨k, some "integer", some (.num mn), some (.num mx), none, u⟩ k (.int n)
        = .ok () := by
      simp [rangeCheck, asNumQ, not_lt.mpr hmn, hu, not_lt.mpr hmx, pure_eq_ok, ok_bind, error_bind]
    simp [checkField, hte, ok_bind, error_bind, pure_eq_ok, this]
  · intro hu hmn hmx
    rw [hcommon]
    have : rangeCheck ⟨k, some "integer", some (.num mn), some (.num mx), none, u⟩ k (.int n)
        = .error (k ++ " above max") := by
      simp [rangeCheck, asNumQ, not_lt.mpr hmn, hu, hmx, pure_eq_ok, ok_bind, error_bind]
    simp [checkField, hte, ok_bind, error_bind, pure_eq_ok, this]
  · intro hmn
    rw [hcommon]
    have : rangeCheck ⟨k, some "integer", some (.num mn), some (.num mx), none, u⟩ k (.int n)
        = .error (k ++ " below min") := by
      simp [rangeCheck, asNumQ, hmn, pure_eq_ok, ok_bind, error_bind]
    simp [checkField, hte, ok_bind, error_bind, pure_eq_ok, this]

/-- C7 witness: a yen field far above its max passes; a non-yen field above
its max is rejected. -/
theorem C7_witness :
    validateInput [("deposit_yen", J.int 5000000)]
      ⟨[⟨"deposit_yen", some "integer", some (.num 0), some (.num 100), none,
         some (.str "yen")⟩], []⟩ = .ok () ∧
    validateInput [("area_sqm", J.int 5000)]
      ⟨[⟨"area_sqm", some "integer", some (.num 0), some (.num 100), none,
         some (.str "sqm")⟩], []⟩ = .error ("area_sqm" ++ " above max") := by
  refine ⟨(C7_yen_fields_skip_only_max "deposit_yen" 0 100 5000000 (some (.str "yen"))
      (by decide)).1 rfl (by norm_num),
    (C7_yen_fields_skip_only_max "area_sqm" 0 100 5000 (some (.str "sqm"))
      (by decide)).2.2.1 (by decide) (by norm_num) (by norm_num)⟩

/-! ## C8 -/

/-- C8: for a non-live benchmark match, the benchmark monthly fixed cost used
downstream is the matched rent plus min(listing mgmt fee, min(round(0.05 *
matched rent), 20000)) when the listing mgmt fee is positive; it is the
matched rent unchanged when the mgmt fee is 0, and stays absent when the
match produced no rent. -/
theorem C8_benchmark_mgmt_fee_estimate
    (bm : BenchmarkMatch) (payload : List (String × J)) (m r : Int)
    (hlive : liveLevels.contains bm.matched_level = false)
    (hmgmt : objGet payload "mgmt_fee_yen" = some (.int m)) :
    (bm.benchmark_rent_yen = none →
      benchmarkMonthlyFixedCost bm payload = .ok (none, bm.benchmark_rent_yen_raw, 0)) ∧
    (bm.benchmark_rent_yen = some r → 0 < r → 0 < m →
      ∃ rw, benchmarkMonthlyFixedCost bm payload
        = .ok (some (r + min m (min (roundHalfEven ((r : ℚ) * 0.05)) 20000)), rw,
               min m (min (roundHalfEven ((r : ℚ) * 0.05)) 20000))) ∧
    (bm.benchmark_rent_yen = some r → m = 0 →
      benchmarkMonthlyFixedCost bm payload = .ok (some r, bm.benchmark_rent_yen_raw, 0)) := by
  have hmJ : ctxGet payload "mgmt_fee_yen" = J.int m := by
    simp [ctxGet, hmgmt]
  refine ⟨?_, ?_, ?_⟩
  · intro h
    simp [benchmarkMonthlyFixedCost, h, pure_eq_ok]
  · intro h hr hm
    have hRH : 0 ≤ roundHalfEven ((r : ℚ) * 0.05) :=
      roundHalfEven_nonneg (by positivity)
    have hE : estimateBenchmarkMgmtFee r m
        = min m (min (roundHalfEven ((r : ℚ) * 0.05)) 20000) := by
      unfold estimateBenchmarkMgmtFee
      rw [if_neg (by omega), if_neg (by omega)]
      have hmx : max 0 (min (roundHalfEven ((r : ℚ) * 0.05)) 20000)
          = min (roundHalfEven ((r : ℚ) * 0.05)) 20000 :=
        max_eq_right (le_min hRH (by norm_num))
      simp [hmx]
    have ht : truthy (J.int m) = true := by
      simp only [truthy, bne_iff_ne, ne_eq, decide_eq_true_eq]
      omega
    simp only [benchmarkMonthlyFixedCost, h, hlive, hmJ, Bool.false_eq_true, if_false,
      ht, if_true, pyIntE, ok_bind, hE]
    by_cases hpos : 0 < min m (min (roundHalfEven ((r : ℚ) * 0.05)) 20000)
    · exact ⟨_, by rw [if_pos hpos]; rfl⟩
    · have hz : min m (min (roundHalfEven ((r : ℚ) * 0.05)) 20000) = 0 := by
        have : 0 ≤ min m (min (roundHalfEven ((r : ℚ) * 0.05)) 20000) :=
          le_min (by omega) (le_min hRH (by norm_num))
        omega
      refine ⟨bm.benchmark_rent_yen_raw, ?_⟩
      rw [if_neg hpos, hz, add_zero]
      rfl
  · intro h hm
    subst hm
    have hE : estimateBenchmarkMgmtFee r 0 = 0 := by
      unfold estimateBenchmarkMgmtFee
      split
      · rfl
      · rw [if_pos le_rfl]
    have ht : truthy (J.int 0) = false := by
      simp [truthy]
    simp [benchmarkMonthlyFixedCost, h, hlive, hmJ, ht, pyIntE, ok_bind, hE, pure_eq_ok]

/-- C8 witness: concrete tiered matches with a positive and a zero listing
management fee. -/
theorem C8_witness :
    (∃ rw, benchmarkMonthlyFixedCost ⟨some 100000, some 100000, 3, "high", "muni_level", none⟩
        [("mgmt_fee_yen", J.int 8000)]
      = .ok (some (100000 + min 8000 (min (roundHalfEven ((100000 : ℚ) * 0.05)) 20000)), rw,
             min 8000 (min (roundHalfEven ((100000 : ℚ) * 0.05)) 20000))) ∧
    benchmarkMonthlyFixedCost ⟨some 100000, some 100000, 3, "high", "muni_level", none⟩
        [("mgmt_fee_yen", J.int 0)]
      = .ok (some 100000, some 100000, 0) :=
  ⟨(C8_benchmark_mgmt_fee_estimate ⟨some 100000, some 100000, 3, "high", "muni_level", none⟩
      [("mgmt_fee_yen", J.int 8000)] 8000 100000 (by decide) rfl).2.1 rfl (by norm_num)
      (by norm_num),
   (C8_benchmark_mgmt_fee_estimate ⟨some 100000, some 100000, 3, "high", "muni_level", none⟩
      [("mgmt_fee_yen", J.int 0)] 0 100000 (by decide) rfl).2.2 rfl rfl⟩

/-! ## C5 -/
theorem qualBands_cons_none (score : ℚ) (b : Band) (rest : List Band)
    (he : bandEntry b = none) :
    qualBands score (b :: rest) = qualBands score rest := by
  simp [qualBands, List.filterMap_cons, he]

theorem qualBands_cons_some (score : ℚ) (b : Band) (rest : List Band) (g : String) (m : ℚ)
    (he : bandEntry b = some (g, m)) (hs : m ≤ score) (hm1 : (-1 : ℚ) ≤ m) :
    qualBands score (b :: rest) = (g, m) :: qualBands score rest := by
  simp [qualBands, List.filterMap_cons, he, hs, hm1]

theorem qualBands_cons_skip (score : ℚ) (b : Band) (rest : List Band) (g : String) (m : ℚ)
    (he : bandEntry b = some (g, m)) (h : ¬ (m ≤ score ∧ (-1 : ℚ) ≤ m)) :
    qualBands score (b :: rest) = qualBands score rest := by
  simp only [qualBands, List.filterMap_cons, he, Option.some_bind]
  rw [if_neg h]

theorem gradeLoop_eq_bestPair (score : ℚ) :
    ∀ (bands : List Band) (g0 : String) (m0 : ℚ), -1 ≤ m0 →
      gradeLoop score bands g0 m0 = (bestPair (g0, m0) (qualBands score bands)).1 := by
  intro bands
  induction bands with
  | nil => intro g0 m0 _; rfl
  | cons b rest ih =>
    intro g0 m0 h0
    rcases he : bandEntry b with _ | ⟨g, m⟩
    · rw [qualBands_cons_none score b rest he]
      simp only [gradeLoop, he]
      exact ih g0 m0 h0
    · by_cases hs : m ≤ score
      · by_cases hm1 : (-1 : ℚ) ≤ m
        · rw [qualBands_cons_some score b rest g m he hs hm1]
          by_cases ho : m0 ≤ m
          · have hL : gradeLoop score (b :: rest) g0 m0 = gradeLoop score rest g m := by
              simp only [gradeLoop, he]
              rw [if_pos ⟨hs, ho⟩]
            rw [hL]
            have hR : bestPair (g0, m0) ((g, m) :: qualBands score rest)
                = bestPair (g, m) (qualBands score rest) := by
              simp only [bestPair]
              rw [if_pos ho]
            rw [hR]
            exact ih g m hm1
          · have hL : gradeLoop score (b :: rest) g0 m0 = gradeLoop score rest g0 m0 := by
              simp only [gradeLoop, he]
              rw [if_neg (by tauto)]
            rw [hL]
            have hR : bestPair (g0, m0) ((g, m) :: qualBands score rest)
                = bestPair (g0, m0) (qualBands score rest) := by
              simp only [bestPair]
              rw [if_neg ho]
            rw [hR]
            exact ih g0 m0 h0
        · have hno : ¬ m0 ≤ m := by
            have := lt_of_not_le hm1
            linarith
          rw [qualBands_cons_skip score b rest g m he (by tauto)]
          have hL : gradeLoop score (b :: rest) g0 m0 = gradeLoop score rest g0 m0 := by
            simp only [gradeLoop, he]
            rw [if_neg (by tauto)]
          rw [hL]
          exact ih g0 m0 h0
      · rw [qualBands_cons_skip score b rest g m he (by tauto)]
        have hL : gradeLoop score (b :: rest) g0 m0 = gradeLoop score rest g0 m0 := by
          simp only [gradeLoop, he]
          rw [if_neg (by tauto)]
        rw [hL]
        exact ih g0 m0 h0

theorem bestPair_eq_lastArgmax :
    ∀ (l : List (String × ℚ)) (p : String × ℚ),
      bestPair p l = (match lastArgmax l with
        | none => p
        | some q => if p.2 ≤ q.2 then q else p) := by
  intro l
  induction l with
  | nil => intro p; rfl
  | cons x rest ih =>
    intro p
    have hB : bestPair p (x :: rest) = bestPair (if p.2 ≤ x.2 then x else p) rest := by
      simp only [bestPair]
    rcases hA : lastArgmax rest with _ | q
    · have hAx : lastArgmax (x :: rest) = some x := by
        simp only [lastArgmax, hA]
      rw [hB, ih, hA, hAx]
    · by_cases h2 : x.2 ≤ q.2
      · have hAx : lastArgmax (x :: rest) = some q := by
          simp only [lastArgmax, hA]
          rw [if_pos h2]
        rw [hB, ih, hA, hAx]
        dsimp only
        by_cases h1 : p.2 ≤ x.2
        · rw [if_pos h1, if_pos h2, if_pos (le_trans h1 h2)]
        · rw [if_neg h1]
      · have hAx : lastArgmax (x :: rest) = some x := by
          simp only [lastArgmax, hA]
          rw [if_neg h2]
        rw [hB, ih, hA, hAx]
        dsimp only
        by_cases h1 : p.2 ≤ x.2
        · rw [if_pos h1, if_neg h2]
        · have hq : ¬ p.2 ≤ q.2 := by
            have hx := lt_of_not_le h1
            have h2x := lt_of_not_le h2
            intro hc
            linarith
          rw [if_neg h1, if_neg hq]

theorem lastArgmax_none_iff (l : List (String × ℚ)) : lastArgmax l = none ↔ l = [] := by
  cases l with
  | nil => simp [lastArgmax]
  | cons x rest =>
    simp only [lastArgmax]
    rcases lastArgmax rest with _ | q
    · simp
    · dsimp only
      split_ifs <;> simp

theorem lastArgmax_spec :
    ∀ (l : List (String × ℚ)) (q : String × ℚ), lastArgmax l = some q →
      q ∈ l ∧ ∀ p ∈ l, p.2 ≤ q.2 := by
  intro l
  induction l with
  | nil => intro q h; cases h
  | cons x rest ih =>
    intro q h
    simp only [lastArgmax] at h
    rcases hA : lastArgmax rest with _ | q'
    · rw [hA] at h
      dsimp only at h
      have hrest : rest = [] := (lastArgmax_none_iff rest).mp hA
      subst hrest
      cases h
      simp
    · rw [hA] at h
      dsimp only at h
      rcases ih q' hA with ⟨hmem, hbound⟩
      by_cases h2 : x.2 ≤ q'.2
      · rw [if_pos h2] at h
        cases h
        refine ⟨List.mem_cons_of_mem _ hmem, ?_⟩
        intro p hp
        rcases List.mem_cons.mp hp with rfl | hp
        · exact h2
        · exact hbound p hp
      · rw [if_neg h2] at h
        cases h
        refine ⟨List.mem_cons_self _ _, ?_⟩
        intro p hp
        rcases List.mem_cons.mp hp with rfl | hp
        · exact le_rfl
        · linarith [hbound p hp, lt_of_not_le h2]

theorem mem_qualBands {score : ℚ} {bands : List Band} {p : String × ℚ}
    (hp : p ∈ qualBands score bands) : p.2 ≤ score ∧ -1 ≤ p.2 := by
  simp only [qualBands, List.mem_filterMap] at hp
  rcases hp with ⟨b, _, hb⟩
  rcases he : bandEntry b with _ | p0 <;> rw [he] at hb
  · cases hb
  · simp only [Option.some_bind] at hb
    split_ifs at hb with hc
    cases hb
    exact hc

/-- C5 amended: grade selection returns the grade of the qualifying band
(string grade, numeric min_score, min_score at most the score and at least
the -1.0 sentinel) with the highest min_score, ties broken in favor of the
LAST-seen band in list order; with no qualifying band the default grade D is
returned. -/
theorem C5_grade_selection_last_tie_wins (score : ℚ) (bands : List Band) :
    gradeForScore score bands
      = ((lastArgmax (qualBands score bands)).map Prod.fst).getD "D" ∧
    ∀ q, lastArgmax (qualBands score bands) = some q →
      q ∈ qualBands score bands ∧ ∀ p ∈ qualBands score bands, p.2 ≤ q.2 := by
  constructor
  · unfold gradeForScore
    rw [gradeLoop_eq_bestPair score bands "D" (-1) le_rfl]
    rw [bestPair_eq_lastArgmax]
    rcases hA : lastArgmax (qualBands score bands) with _ | q
    · rfl
    · have hq := (lastArgmax_spec _ q hA).1
      have hn := (mem_qualBands hq).2
      dsimp only
      rw [if_pos hn]
      simp
  · intro q hq
    exact lastArgmax_spec _ q hq

/-- C5 counterexample: two bands tie at the highest qualifying min_score and
the SECOND (last-seen) band is selected, not the first-seen one the claim
states. -/
theorem C5_counterexample :
    gradeForScore 50 [⟨some (.str "A"), some (.int 0)⟩, ⟨some (.str "B"), some (.int 0)⟩]
      = "B" := rfl

/-- C5 witness: a concrete graded band list. -/
theorem C5_witness :
    gradeForScore 85 [⟨some (.str "C"), some (.int 0)⟩, ⟨some (.str "B"), some (.int 60)⟩,
        ⟨some (.str "A"), some (.int 80)⟩]
      = ((lastArgmax (qualBands 85 [⟨some (.str "C"), some (.int 0)⟩,
          ⟨some (.str "B"), some (.int 60)⟩,
          ⟨some (.str "A"), some (.int 80)⟩])).map Prod.fst).getD "D" :=
  (C5_grade_selection_last_tie_wins 85 _).1

/-! ## C3 -/
/-- When every feature score is present, the component loop accumulates the
plain weighted sum and the full declared weight. -/
theorem componentLoop_all_present (ctx : List (String × J)) (s2 : S2) :
    ∀ (feats : List Feature) (t0 a0 : ℚ),
      (∀ f ∈ feats, ∃ s : ℚ, featureScore f ctx s2 = .ok (some s)) →
      ∃ T : ℚ, plainWeightedScore feats ctx s2 = .ok T ∧
        componentLoop ctx s2 feats t0 a0 = .ok (t0 + T, a0 + (feats.map Feature.weight).sum) := by
  intro feats
  induction feats with
  | nil =>
    intro t0 a0 _
    exact ⟨0, rfl, by simp [componentLoop]⟩
  | cons f rest ih =>
    intro t0 a0 hok
    obtain ⟨s, hf⟩ := hok f (List.mem_cons_self f rest)
    obtain ⟨T', hplain, hloop⟩ :=
      ih (t0 + f.weight * s) (a0 + f.weight) (fun g hg => hok g (List.mem_cons_of_mem f hg))
    refine ⟨f.weight * s + T', ?_, ?_⟩
    · simp only [plainWeightedScore, hf, ok_bind, hplain, pure_eq_ok]
    · simp only [componentLoop, hf, ok_bind, hloop]
      simp only [List.map_cons, List.sum_cons, Prod.mk.injEq, Except.ok.injEq]
      constructor <;> ring

/-- C3: when every feature input is present (no feature score absent), the
component score is the rounded plain weighted combination of the individual
feature scores — the renormalization scale declared/available collapses to 1;
under normalized weights (sum = 1) this is the plain weighted average. -/
theorem C3_component_score_renormalization_noop (feats : List Feature) (ctx : List (String × J)) (s2 : S2)
    (hok : ∀ f ∈ feats, ∃ s : ℚ, featureScore f ctx s2 = .ok (some s))
    (hw : 0 < (feats.map Feature.weight).sum) :
    ∃ t : ℚ, plainWeightedScore feats ctx s2 = .ok t ∧
      computeComponentScore feats ctx s2 = .ok (pyRound6 t) ∧
      ((feats.map Feature.weight).sum = 1 →
        computeComponentScore feats ctx s2
          = .ok (pyRound6 (t / (feats.map Feature.weight).sum))) := by
  obtain ⟨T, hplain, hloop⟩ := componentLoop_all_present ctx s2 feats 0 0 hok
  have h2 : computeComponentScore feats ctx s2 = .ok (pyRound6 T) := by
    simp only [computeComponentScore, hloop, ok_bind, zero_add]
    rw [if_neg (not_le.mpr hw), if_pos hw]
    rw [div_self (ne_of_gt hw), mul_one]
  refine ⟨T, hplain, h2, fun h1 => ?_⟩
  rw [h2, h1, div_one]

/-- C3 witness: one full-weight boolean feature with its input present. -/
theorem C3_witness :
    ∃ t : ℚ, plainWeightedScore [boolFeat] [("x", J.bool true)] {} = .ok t ∧
      computeComponentScore [boolFeat] [("x", J.bool true)] {} = .ok (pyRound6 t) ∧
      (([boolFeat].map Feature.weight).sum = 1 →
        computeComponentScore [boolFeat] [("x", J.bool true)] {}
          = .ok (pyRound6 (t / ([boolFeat].map Feature.weight).sum))) :=
  C3_component_score_renormalization_noop [boolFeat] [("x", J.bool true)] {}
    (fun f hf => by
      rw [List.mem_singleton] at hf
      subst hf
      exact ⟨100, rfl⟩)
    (by norm_num [boolFeat])

/-! ## C1 -/

set_option linter.unreachableTactic false

set_option linter.unusedTactic false

theorem aa_conf (shrink : ℚ → ℚ → ℚ) (hedonic : List (String × J)) (lt : String)
    (bs : Option String) (a : Option ℚ) (ag sw : Option Int) (o : Option String)
    (b : Option Bool) (raw n : Int) (conf ml : String) :
    (applyAdjustment shrink hedonic lt bs a ag sw o b raw n conf ml).benchmark_confidence
      = conf := by
  unfold applyAdjustment
  split
  · rfl
  · dsimp only
    split <;> rfl

theorem aa_level (shrink : ℚ → ℚ → ℚ) (hedonic : List (String × J)) (lt : String)
    (bs : Option String) (a : Option ℚ) (ag sw : Option Int) (o : Option String)
    (b : Option Bool) (raw n : Int) (conf ml : String) :
    (applyAdjustment shrink hedonic lt bs a ag sw o b raw n conf ml).matched_level = ml := by
  unfold applyAdjustment
  split
  · rfl
  · dsimp only
    split <;> rfl

theorem aa_n (shrink : ℚ → ℚ → ℚ) (hedonic : List (String × J)) (lt : String)
    (bs : Option String) (a : Option ℚ) (ag sw : Option Int) (o : Option String)
    (b : Option Bool) (raw n : Int) (conf ml : String) :
    (applyAdjustment shrink hedonic lt bs a ag sw o b raw n conf ml).benchmark_n_sources
      = n := by
  unfold applyAdjustment
  split
  · rfl
  · dsimp only
    split <;> rfl

theorem aa_raw (shrink : ℚ → ℚ → ℚ) (hedonic : List (String × J)) (lt : String)
    (bs : Option String) (a : Option ℚ) (ag sw : Option Int) (o : Option String)
    (b : Option Bool) (raw n : Int) (conf ml : String) :
    (applyAdjustment shrink hedonic lt bs a ag sw o b raw n conf ml).benchmark_rent_yen_raw
      = some raw := by
  unfold applyAdjustment
  split
  · rfl
  · dsimp only
    split <;> rfl

/-- C1: benchmark tier matching priority.  (1) A structure-aware entry with
at least 2 rows is used with confidence high at level muni_structure_level.
(2) A structure-aware entry with exactly 1 row is never used: the result is
the same as matching with an empty structure tier (fall-through to the
municipality tier).  (3) A municipality-level match uses the municipality
entry with confidence high iff its sample count is at least 2, else mid.
(4) A prefecture-level match always has confidence mid.  (5) A result with
confidence none is exactly the no-match result with null rent fields.
(6) Confidence high implies the matched sample count is at least 2, and
(7) so does a muni_structure_level match. -/
theorem C1_benchmark_tier_priority
    (shrink : ℚ → ℚ → ℚ) (prefecture : String) (municipality : Option String)
    (layout_type : String) (building_structure : Option String) (idx : BenchmarkIndex)
    (area_sqm : Option ℚ) (age walk : Option Int) (orientation : Option String)
    (bath : Option Bool) (spec : Option J) (r : BenchmarkMatch) (e : TierEntry) (yen : Int)
    (hr : r = matchBenchmarkRent shrink prefecture municipality layout_type
      building_structure idx area_sqm age walk orientation bath spec) :
    ((pyStrip (municipality.getD "") ≠ "" ∧ pyStrip (building_structure.getD "") ≠ "" ∧
        pyStrip (building_structure.getD "") ≠ "other" ∧
        pyStrip (building_structure.getD "") ≠ "all") →
      idx.by_pref_muni_layout_structure
          (prefecture ++ "|" ++ pyStrip (municipality.getD "") ++ "|" ++ layout_type ++ "|"
            ++ pyStrip (building_structure.getD ""))
        = some e →
      e.benchmark_rent_yen_median = some yen →
      2 ≤ e.n_rows.getD 0 →
      r.benchmark_confidence = "high" ∧ r.matched_level = "muni_structure_level" ∧
        r.benchmark_n_sources = e.n_rows.getD 0 ∧ r.benchmark_rent_yen_raw = some yen) ∧
    ((pyStrip (municipality.getD "") ≠ "" ∧ pyStrip (building_structure.getD "") ≠ "" ∧
        pyStrip (building_structure.getD "") ≠ "other" ∧
        pyStrip (building_structure.getD "") ≠ "all") →
      idx.by_pref_muni_layout_structure
          (prefecture ++ "|" ++ pyStrip (municipality.getD "") ++ "|" ++ layout_type ++ "|"
            ++ pyStrip (building_structure.getD ""))
        = some e →
      e.benchmark_rent_yen_median = some yen →
      e.n_rows.getD 0 = 1 →
      r = matchBenchmarkRent shrink prefecture municipality layout_type building_structure
        { idx with by_pref_muni_layout_structure := fun _ => none }
        area_sqm age walk orientation bath spec) ∧
    (r.matched_level = "muni_level" →
      ∃ (e2 : TierEntry) (yen2 : Int),
        idx.by_pref_muni_layout
            (prefecture ++ "|" ++ pyStrip (municipality.getD "") ++ "|" ++ layout_type)
          = some e2 ∧
        e2.benchmark_rent_yen_median = some yen2 ∧
        r.benchmark_confidence = (if 2 ≤ e2.n_rows.getD 0 then "high" else "mid") ∧
        r.benchmark_n_sources = e2.n_rows.getD 0) ∧
    (r.matched_level = "pref_level" → r.benchmark_confidence = "mid") ∧
    (r.benchmark_confidence = "none" → r = ⟨none, none, 0, "none", "none", none⟩) ∧
    (r.benchmark_confidence = "high" → 2 ≤ r.benchmark_n_sources) ∧
    (r.matched_level = "muni_structure_level" → 2 ≤ r.benchmark_n_sources) := by
  subst hr
  refine ⟨?_, ?_, ?_, ?_⟩
  · intro hc hL hY hN
    unfold matchBenchmarkRent
    dsimp only
    rw [if_pos hc, hL]
    dsimp only
    rw [hY]
    dsimp only
    rw [if_pos hN]
    exact ⟨aa_conf _ _ _ _ _ _ _ _ _ _ _ _ _, aa_level _ _ _ _ _ _ _ _ _ _ _ _ _,
      aa_n _ _ _ _ _ _ _ _ _ _ _ _ _, aa_raw _ _ _ _ _ _ _ _ _ _ _ _ _⟩
  · intro hc hL hY hN
    unfold matchBenchmarkRent
    dsimp only
    rw [if_pos hc, hL]
    dsimp only
    rw [hY]
    dsimp only
    rw [if_neg (by omega), if_pos hc]
  · unfold matchBenchmarkRent
    dsimp only
    repeat' split
    all_goals simp only [aa_conf, aa_level, aa_n, aa_raw]
    all_goals intro h
    all_goals first
      | simp_all
      | (exact ⟨_, _, by assumption, by assumption, by rw [if_pos (by omega)], rfl⟩)
      | (exact ⟨_, _, by assumption, by assumption, by rw [if_neg (by omega)], rfl⟩)
    all_goals first
      | rw [if_neg (by omega)]
      | rw [if_pos (by omega)]
  · unfold matchBenchmarkRent
    dsimp only
    repeat' split
    all_goals simp only [aa_conf, aa_level, aa_n, aa_raw]
    all_goals
      refine ⟨?_, ?_, ?_, ?_⟩ <;> intro h <;> first
        | rfl
        | assumption
        | simp_all

/-- C1 witness: a structure-aware entry with 2 rows wins with confidence
high. -/
theorem C1_witness :
    (matchBenchmarkRent idShrink "tokyo" (some "shinjuku") "1LDK" (some "rc") tierIdxA
        none none none none none none).benchmark_confidence = "high" ∧
    (matchBenchmarkRent idShrink "tokyo" (some "shinjuku") "1LDK" (some "rc") tierIdxA
        none none none none none none).matched_level = "muni_structure_level" ∧
    (matchBenchmarkRent idShrink "tokyo" (some "shinjuku") "1LDK" (some "rc") tierIdxA
        none none none none none none).benchmark_n_sources = 2 ∧
    (matchBenchmarkRent idShrink "tokyo" (some "shinjuku") "1LDK" (some "rc") tierIdxA
        none none none none none none).benchmark_rent_yen_raw = some 160000 :=
  (C1_benchmark_tier_priority idShrink "tokyo" (some "shinjuku") "1LDK" (some "rc") tierIdxA
    none none none none none none _ ⟨some 160000, some 2⟩ 160000 rfl).1
    (by refine ⟨?_, ?_, ?_, ?_⟩ <;> decide) rfl rfl (by decide)

theorem objGet_setKey_same (l : List (String × J)) (k : String) (v : J) :
    objGet (setKey l k v) k = some v := by
  induction l with
  | nil => simp [setKey, objGet]
  | cons kv rest ih =>
    by_cases h : kv.1 = k
    · simp [setKey, objGet, h]
    · simp only [setKey]
      rw [if_neg (by simpa using h)]
      simp only [objGet]
      rw [if_neg (by simpa using h)]
      exact ih

theorem objGet_setKey_other (l : List (String × J)) (k k' : String) (v : J) (h : k' ≠ k) :
    objGet (setKey l k v) k' = objGet l k' := by
  induction l with
  | nil =>
    simp only [setKey, objGet]
    rw [if_neg (fun hc => h hc.symm)]
  | cons kv rest ih =>
    by_cases hk : kv.1 = k
    · simp only [setKey]
      rw [if_pos (by simpa using hk)]
      simp only [objGet]
      rw [if_neg (fun hc => h hc.symm), if_neg (by rw [hk]; exact fun hc => h hc.symm)]
    · simp only [setKey]
      rw [if_neg (by simpa using hk)]
      simp only [objGet]
      by_cases hk' : kv.1 = k'
      · rw [if_pos hk', if_pos hk']
      · rw [if_neg hk', if_neg hk']
        exact ih

theorem setKey_self (l : List (String × J)) (k : String) (v : J)
    (h : objGet l k = some v) : setKey l k v = l := by
  induction l with
  | nil => cases h
  | cons kv rest ih =>
    rcases kv with ⟨k1, v1⟩
    simp only [objGet] at h
    simp only [setKey]
    by_cases hk : k1 = k
    · rw [if_pos hk] at h
      rw [if_pos hk]
      cases h
      rw [hk]
    · rw [if_neg hk] at h
      rw [if_neg hk, ih h]

theorem setKey_setKey_same (l : List (String × J)) (k : String) (a b : J) :
    setKey (setKey l k a) k b = setKey l k b := by
  induction l with
  | nil => simp [setKey]
  | cons kv rest ih =>
    rcases kv with ⟨k1, v1⟩
    by_cases hk : k1 = k
    · simp [setKey, hk]
    · simp only [setKey]
      rw [if_neg hk]
      simp only [setKey]
      rw [if_neg hk, if_neg hk, ih]

theorem setKey_comm_present (l : List (String × J)) (k k' : String) (a b : J)
    (h : k ≠ k') (hk : (objGet l k).isSome) :
    setKey (setKey l k a) k' b = setKey (setKey l k' b) k a := by
  induction l with
  | nil => simp [objGet] at hk
  | cons kv rest ih =>
    rcases kv with ⟨k1, v1⟩
    by_cases h1 : k1 = k
    · simp only [setKey]
      rw [if_pos h1]
      simp only [setKey]
      rw [if_neg h, if_neg (by rw [h1]; exact fun hc => h hc)]
      simp only [setKey]
      rw [if_pos h1]
    · by_cases h2 : k1 = k'
      · simp only [setKey]
        rw [if_neg h1, if_pos h2]
        simp only [setKey]
        rw [if_pos h2, if_neg (fun hc => h hc.symm)]
      · have hk2 : (objGet rest k).isSome := by
          simp only [objGet] at hk
          rw [if_neg h1] at hk
          exact hk
        simp only [setKey]
        rw [if_neg h1, if_neg h2]
        simp only [setKey]
        rw [if_neg h2, if_neg h1, ih hk2]

theorem foldl_setKey_self (ctx : List (String × J)) :
    ∀ (p : List (String × J)), (∀ kv ∈ p, objGet ctx kv.1 = some kv.2) →
      p.foldl (fun c kv => setKey c kv.1 kv.2) ctx = ctx := by
  intro p
  induction p with
  | nil => intro _; rfl
  | cons kv rest ih =>
    intro h
    simp only [List.foldl_cons]
    rw [setKey_self ctx kv.1 kv.2 (h kv (List.mem_cons_self _ _))]
    exact ih (fun kv2 h2 => h kv2 (List.mem_cons_of_mem _ h2))

/-- C6: the what-if delta_yen action round-trips exactly — applying delta +v
and then -v to the same key restores the original payload — provided no
max(0, ...) clamp engages (the target value stays nonnegative throughout and,
when the delta propagates into initial_cost_total_yen, that total also stays
nonnegative); and on a context consistent with the payload the what-if cost
score recomputation agrees with the base component score.  The claim as
stated omits the clamping proviso; C6_counterexample shows a clamped delta
does not round-trip and changes the recomputed cost score. -/
theorem C6_roundtrip_when_no_clamping
    (costFeats : List Feature) (s2 : S2) (ctx p : List (String × J))
    (bmfc : Option Int) (avg shift : ℚ) (t : String) (v old rent mgmt tot : Int)
    (ht : objGet p t = some (.int old))
    (hrent : objGet p "rent_yen" = some (.int rent))
    (hmgmt : objGet p "mgmt_fee_yen" = some (.int mgmt))
    (htot : objGet p "initial_cost_total_yen" = some (.int tot))
    (hold : 0 ≤ old) (holdv : 0 ≤ old + v)
    (hprop : t = "initial_cost_total_yen" ∨ strEndsWith t "_yen" = false ∨
      (0 ≤ tot ∧ 0 ≤ tot + v))
    (hcmf : objGet ctx "monthly_fixed_cost_yen" = some (.int (rent + mgmt)))
    (hcim : objGet ctx "initial_multiple"
      = some (.num (initialMultiple ((tot : Int) : ℚ) (rent + mgmt))))
    (hcrdr : objGet ctx "rent_delta_ratio"
      = some (.num (rentDeltaRatio (rent + mgmt) bmfc)))
    (hcd1 : objGet ctx "initial_multiple_market_delta"
      = some (.num (initialMultiple ((tot : Int) : ℚ) (rent + mgmt) - avg)))
    (hcd2 : objGet ctx "initial_multiple_market_delta_foreigner"
      = some (.num (max 0 (initialMultiple ((tot : Int) : ℚ) (rent + mgmt) - shift) - avg)))
    (hp : ∀ kv ∈ p, objGet ctx kv.1 = some kv.2) :
    ∃ p1, applyWhatIfAction p t "delta_yen" (.int v) = .ok (some p1) ∧
      applyWhatIfAction p1 t "delta_yen" (.int (-v)) = .ok (some p) ∧
      whatIfCostScore costFeats s2 ctx bmfc avg shift p
        = computeComponentScore costFeats ctx s2 := by
  have hscore : whatIfCostScore costFeats s2 ctx bmfc avg shift p
      = computeComponentScore costFeats ctx s2 := by
    unfold whatIfCostScore
    simp only [reqKey, hrent, hmgmt, htot, pyIntE, pyFloatE, ok_bind]
    rw [foldl_setKey_self ctx p hp]
    rw [setKey_self _ _ _ hcmf, setKey_self _ _ _ hcrdr, setKey_self _ _ _ hcim,
      setKey_self _ _ _ hcd1, setKey_self _ _ _ hcd2]
  have hmax1 : max 0 (old + v) = old + v := max_eq_right holdv
  have hctx_t : ctxGet p t = J.int old := by simp [ctxGet, ht]
  by_cases hT : t = "initial_cost_total_yen"
  · subst hT
    rw [ht] at htot
    have hot : old = tot := by
      simpa using htot
    subst hot
    refine ⟨setKey p "initial_cost_total_yen" (.int (old + v)), ?_, ?_, hscore⟩
    · simp only [applyWhatIfAction, hctx_t, asIntOr0, pyIntE, ok_bind, if_pos rfl,
        pure_eq_ok, hmax1, if_true, ite_true, ite_false]
      simp only [ne_eq, not_true_eq_false, false_and, if_false]
    · have hctx2 : ctxGet (setKey p "initial_cost_total_yen" (.int (old + v)))
          "initial_cost_total_yen" = J.int (old + v) := by
        simp [ctxGet, objGet_setKey_same]
      have hmax2 : max 0 (old + v + -v) = old := by omega
      simp only [applyWhatIfAction, hctx2, asIntOr0, pyIntE, ok_bind, pure_eq_ok, hmax2,
        ne_eq, not_true_eq_false, false_and, if_false, if_true, ite_true, ite_false]
      rw [setKey_setKey_same, setKey_self _ _ _ ht]
  · by_cases hY : strEndsWith t "_yen"
    · have htv : 0 ≤ tot ∧ 0 ≤ tot + v := by
        rcases hprop with h | h | h
        · exact absurd h hT
        · rw [h] at hY; cases hY
        · exact h
      have hTne : "initial_cost_total_yen" ≠ t := fun hc => hT hc.symm
      have hG1 : objGet (setKey p t (.int (old + v))) "initial_cost_total_yen"
          = some (.int tot) := by
        rw [objGet_setKey_other _ _ _ _ hTne]
        exact htot
      have hmaxtv : max 0 (tot + (old + v - old)) = tot + v := by omega
      refine ⟨setKey (setKey p t (.int (old + v))) "initial_cost_total_yen"
          (.int (tot + v)), ?_, ?_, hscore⟩
      · simp only [applyWhatIfAction, hctx_t, asIntOr0, pyIntE, ok_bind, pure_eq_ok, hmax1, if_true, ite_true, ite_false]
        have hcnd1 : t ≠ "initial_cost_total_yen" ∧ strEndsWith t "_yen" = true ∧
            (objGet (setKey p t (J.int (old + v))) "initial_cost_total_yen").isSome = true :=
          ⟨hT, hY, by rw [hG1]; rfl⟩
        rw [if_pos hcnd1]
        simp only [ctxGet, objGet_setKey_same, hG1, Option.getD_some, asIntOr0, pyIntE,
          ok_bind, pure_eq_ok]
        rw [hmaxtv]
      · have hg_t : ctxGet (setKey (setKey p t (.int (old + v))) "initial_cost_total_yen"
            (.int (tot + v))) t = J.int (old + v) := by
          simp [ctxGet, objGet_setKey_other _ _ _ _ (fun hc => hT hc), objGet_setKey_same]
        have hmax3 : max 0 (old + v + -v) = old := by omega
        simp only [applyWhatIfAction, hg_t, asIntOr0, pyIntE, ok_bind, pure_eq_ok, hmax3, if_true, ite_true, ite_false]
        have hG2 : objGet (setKey (setKey (setKey p t (.int (old + v)))
            "initial_cost_total_yen" (.int (tot + v))) t (.int old))
            "initial_cost_total_yen" = some (.int (tot + v)) := by
          rw [objGet_setKey_other _ _ _ _ hTne]
          exact objGet_setKey_same _ _ _
        have hcnd2 : t ≠ "initial_cost_total_yen" ∧ strEndsWith t "_yen" = true ∧
            (objGet (setKey (setKey (setKey p t (J.int (old + v)))
              "initial_cost_total_yen" (J.int (tot + v))) t (J.int old))
              "initial_cost_total_yen").isSome = true :=
          ⟨hT, hY, by rw [hG2]; rfl⟩
        rw [if_pos hcnd2]
        simp only [ctxGet, objGet_setKey_same, hG2, Option.getD_some, asIntOr0, pyIntE,
          ok_bind, pure_eq_ok]
        have hmax4 : max 0 (tot + v + (old - (old + v))) = tot := by omega
        rw [hmax4]
        have hpresent : (objGet (setKey p t (.int (old + v))) t).isSome := by
          rw [objGet_setKey_same]
          rfl
        rw [← setKey_comm_present _ _ _ _ _ (fun hc => hT hc) hpresent]
        simp only [setKey_setKey_same]
        rw [setKey_self _ _ _ ht, setKey_self _ _ _ htot]
    · refine ⟨setKey p t (.int (old + v)), ?_, ?_, hscore⟩
      · simp only [applyWhatIfAction, hctx_t, asIntOr0, pyIntE, ok_bind, pure_eq_ok, hmax1, if_true, ite_true, ite_false]
        rw [if_neg (by simp [hY])]
      · have hg_t : ctxGet (setKey p t (.int (old + v))) t = J.int (old + v) := by
          simp [ctxGet, objGet_setKey_same]
        have hmax3 : max 0 (old + v + -v) = old := by omega
        simp only [applyWhatIfAction, hg_t, asIntOr0, pyIntE, ok_bind, pure_eq_ok, hmax3, if_true, ite_true, ite_false]
        rw [if_neg (by simp [hY])]
        rw [setKey_setKey_same, setKey_self _ _ _ ht]

/-- C6 counterexample: applying delta_yen -20000 then +20000 to
initial_cost_total_yen of payloadCex does not return to the original payload
(the max(0, ...) clamp loses 10000), and the recomputed cost score differs
(80 after the round trip versus 90 on the base context). -/
theorem C6_counterexample :
    applyWhatIfAction payloadCex "initial_cost_total_yen" "delta_yen" (.int (-20000))
      = .ok (some (setKey payloadCex "initial_cost_total_yen" (.int 0))) ∧
    applyWhatIfAction (setKey payloadCex "initial_cost_total_yen" (.int 0))
        "initial_cost_total_yen" "delta_yen" (.int 20000)
      = .ok (some (setKey payloadCex "initial_cost_total_yen" (.int 20000))) ∧
    objGet (setKey payloadCex "initial_cost_total_yen" (.int 20000)) "initial_cost_total_yen"
      ≠ objGet payloadCex "initial_cost_total_yen" ∧
    computeComponentScore [imLinearFeat] ctxCex {} = .ok 90 ∧
    whatIfCostScore [imLinearFeat] {} ctxCex none 5 1
        (setKey payloadCex "initial_cost_total_yen" (.int 20000))
      = .ok 80 := by
  refine ⟨?_, ?_, ?_, ?_, ?_⟩
  · rfl
  · rfl
  · simp [payloadCex, setKey, objGet]
  · norm_num +decide [computeComponentScore, componentLoop, featureScore, scoreLinear,
      reqFloat, pyFloatE, ctxGet, objGet, ctxCex, payloadCex, imLinearFeat,
      truthy, pyEqB, asNumQ, Option.getD, ok_bind, pure_eq_ok]
    rw [show ((90 : ℚ)) = (((90 : Int) : ℚ)) by norm_num, pyRound6_intCast]
  · norm_num +decide [whatIfCostScore, reqKey, pyIntE, pyFloatE, initialMultiple,
      rentDeltaRatio, setKey, List.foldl, computeComponentScore, componentLoop,
      featureScore, scoreLinear, reqFloat, ctxGet, objGet, ctxCex, payloadCex,
      imLinearFeat, truthy, pyEqB, asNumQ, Option.getD, ok_bind, pure_eq_ok]
    rw [show ((80 : ℚ)) = (((80 : Int) : ℚ)) by norm_num, pyRound6_intCast]

/-- C6 witness: the round-trip theorem at a concrete breakdown fee key of
payloadC6 (reikin_yen 5000, delta 2000) with every clamp inactive. -/
theorem C6_witness :
    ∃ p1, applyWhatIfAction payloadC6 "reikin_yen" "delta_yen" (.int 2000)
        = .ok (some p1) ∧
      applyWhatIfAction p1 "reikin_yen" "delta_yen" (.int (-2000))
        = .ok (some payloadC6) ∧
      whatIfCostScore [boolFeat] {} ctxC6 none 5 1 payloadC6
        = computeComponentScore [boolFeat] ctxC6 {} :=
  C6_roundtrip_when_no_clamping [boolFeat] {} ctxC6 payloadC6 none 5 1 "reikin_yen" 2000 5000 10000 0 10000
    rfl rfl rfl rfl (by decide) (by decide)
    (Or.inr (Or.inr ⟨by decide, by decide⟩))
    rfl
    (by
      have h1 : initialMultiple ((10000 : Int) : ℚ) (10000 + 0) = 1 := by
        norm_num [initialMultiple]
      rw [h1]; rfl)
    rfl
    (by
      have h1 : initialMultiple ((10000 : Int) : ℚ) (10000 + 0) = 1 := by
        norm_num [initialMultiple]
      rw [h1]; rfl)
    (by
      have h1 : initialMultiple ((10000 : Int) : ℚ) (10000 + 0) = 1 := by
        norm_num [initialMultiple]
      rw [h1]
      have h2 : (max 0 ((1 : ℚ) - 1) - 5) = 0 - 5 := by norm_num
      rw [h2]; rfl)
    (by intro kv hkv; fin_cases hkv <;> rfl)
